import Mathlib

/-!
Verification development for the Statly daily rank-tracking core.

The Python modules under src/services (lolTracking, valorantTracking,
apexTracking, rocketLeagueTracking), src/services/riot_api and
src/utils/database are shallowly embedded below.  SQLite tables become
lists of rows, DB queries become list operations, provider HTTP calls
become explicit Option-valued parameters (what the call would return),
and Python dicts of fixed shape become structures whose fields of type
Option model possibly-None values (an absent dict is modelled by an
outer Option, since at every call site the dicts either carry their
full key set or are entirely empty).  Timestamps are (day, timeOfDay)
pairs of naturals; SQLite date(capturedAt) is the first component and
timestamp comparison is lexicographic.  ISO date strings compared with
the string order are abstracted to day indices with the same order.
-/

/-- Character-level uppercase; models Python str.upper for the ASCII
tier names this code handles. -/
def upperStr (s : String) : String := ⟨s.data.map Char.toUpper⟩

/-- Character-level lowercase; models Python str.lower for playlist names. -/
def lowerStr (s : String) : String := ⟨s.data.map Char.toLower⟩

/-- Whitespace trimming on a character list, both ends; models Python str.strip. -/
def stripChars (l : List Char) : List Char :=
  ((l.dropWhile Char.isWhitespace).reverse.dropWhile Char.isWhitespace).reverse

/-- String form of `stripChars`. -/
def stripStr (s : String) : String := ⟨stripChars s.data⟩

/-- Substring test on character lists; models the Python `needle in hay` test. -/
def containsSub (needle : List Char) : List Char → Bool
  | [] => needle.isEmpty
  | c :: t => needle.isPrefixOf (c :: t) || containsSub needle t

/-- Rendering of a possibly-None string inside a Python f-string:
None prints as "None", a string prints as itself. -/
def renderOptStr (o : Option String) : String := o.getD "None"

/-- Splitting into whitespace-separated words, dropping empties;
models Python str.split with no arguments. -/
def wordsAux (acc : List Char) : List Char → List String
  | [] => if acc.isEmpty then [] else [⟨acc.reverse⟩]
  | c :: cs =>
    if c.isWhitespace then
      if acc.isEmpty then wordsAux [] cs else ⟨acc.reverse⟩ :: wordsAux [] cs
    else wordsAux (c :: acc) cs

/-- Word split of a string, see `wordsAux`. -/
def wordsOf (s : String) : List String := wordsAux [] s.data

/-- Python str.join with a single-space separator. -/
def joinSpace : List String → String
  | [] => ""
  | [w] => w
  | w :: ws => w ++ " " ++ joinSpace ws

/-- Python str.isdigit for ASCII content: nonempty and all digits. -/
def isDigits (s : String) : Bool := !s.isEmpty && s.data.all Char.isDigit

/-- Lexicographic order on character lists, used to model SQL string ordering. -/
def lexLeChars : List Char → List Char → Bool
  | [], _ => true
  | _ :: _, [] => false
  | a :: as, b :: bs => if a = b then lexLeChars as bs else decide (a < b)

/-- Strict lexicographic order on (day, timeOfDay) timestamps. -/
def timeLt (x y : Nat × Nat) : Bool := x.1 < y.1 || (x.1 == y.1 && x.2 < y.2)

/-- Stable insertion into a sorted list, building block of the model of SQL ORDER BY. -/
def insertSorted (le : α → α → Bool) (x : α) : List α → List α
  | [] => [x]
  | y :: ys => if le x y then x :: y :: ys else y :: insertSorted le x ys

/-- Insertion sort used to model SQL ORDER BY (any total order produces
a permutation, which is all the theorems below rely on). -/
def sortByKey (le : α → α → Bool) : List α → List α
  | [] => []
  | x :: xs => insertSorted le x (sortByKey le xs)

namespace Lol

/-- League tier order, src/services/lolTracking.py TIER_ORDER. -/
def TIER_ORDER : List String :=
  ["IRON", "BRONZE", "SILVER", "GOLD", "PLATINUM", "EMERALD", "DIAMOND",
   "MASTER", "GRANDMASTER", "CHALLENGER"]

/-- Rank fields read by lolTracking.computeRankDiff via dict.get. -/
structure Fields where
  tier : Option String
  division : Option String
  lp : Option Int
deriving DecidableEq, Repr

/-- Row of the lolRankSnapshot table (src/utils/database.py schema). -/
structure Row where
  id : Nat
  externalAccountId : Nat
  queueType : String
  tier : Option String
  division : Option String
  lp : Option Int
  wins : Option Int
  losses : Option Int
  capturedAt : Nat × Nat
deriving DecidableEq, Repr

/-- Fields projection of a snapshot row. -/
def Row.fields (r : Row) : Fields := ⟨r.tier, r.division, r.lp⟩

/-- Payload of a successful fetchCurrentLolRank call (src/services/riot_api.py). -/
structure ProviderData where
  tier : Option String
  division : Option String
  lp : Option Int
  wins : Option Int
  losses : Option Int
deriving DecidableEq, Repr

/-- Dict built by lolTracking.getCurrentState. -/
structure CurrentState where
  externalAccountId : Nat
  queueType : String
  tier : Option String
  division : Option String
  lp : Option Int
  wins : Option Int
  losses : Option Int
deriving DecidableEq, Repr

/-- Fields projection of a current-state dict. -/
def CurrentState.fields (c : CurrentState) : Fields := ⟨c.tier, c.division, c.lp⟩

/-- Result dict of lolTracking.computeRankDiff. -/
structure Diff where
  lpDiff : Int
  rankUp : Bool
  rankDown : Bool
  tierChange : Option String
deriving DecidableEq, Repr

/-- League tierIndex (lolTracking.py lines 100-103): a recognized tier maps to
its position in TIER_ORDER, an empty/missing/unknown tier maps to -1. -/
def tierIndex (tier : Option String) : Int :=
  match tier with
  | some t =>
    if t ≠ "" ∧ upperStr t ∈ TIER_ORDER then (TIER_ORDER.indexOf (upperStr t) : Int)
    else -1
  | none => -1

/-- League divisionValue (lolTracking.py lines 105-107). -/
def divisionValue (division : Option String) : Int :=
  match division with
  | some "I" => 3
  | some "II" => 2
  | some "III" => 1
  | some "IV" => 0
  | _ => -1

/-- The f-string "X -> Y" change description of lolTracking.computeRankDiff. -/
def changeDesc (b c : Fields) : String :=
  renderOptStr b.tier ++ " " ++ renderOptStr b.division ++ " -> " ++
    renderOptStr c.tier ++ " " ++ renderOptStr c.division

/-- lolTracking.computeRankDiff (lines 96-137).  The empty-dict guard of the
source corresponds to a `none` argument. -/
def computeRankDiff (baseline current : Option Fields) : Diff :=
  match baseline, current with
  | some b, some c =>
    let baselineTierIdx := tierIndex b.tier
    let currentTierIdx := tierIndex c.tier
    let baselineDivVal := divisionValue b.division
    let currentDivVal := divisionValue c.division
    let lpDiff := c.lp.getD 0 - b.lp.getD 0
    if currentTierIdx > baselineTierIdx then
      ⟨lpDiff, true, false, some (changeDesc b c)⟩
    else if currentTierIdx < baselineTierIdx then
      ⟨lpDiff, false, true, some (changeDesc b c)⟩
    else if currentDivVal > baselineDivVal then
      ⟨lpDiff, true, false, none⟩
    else if currentDivVal < baselineDivVal then
      ⟨lpDiff, false, true, none⟩
    else
      ⟨lpDiff, false, false, none⟩
  | _, _ => ⟨0, false, false, none⟩

/-- Filter of the baseline SELECT: same account, same queue, captured today. -/
def matchesToday (acct : Nat) (q : String) (today : Nat) (r : Row) : Bool :=
  r.externalAccountId == acct && r.queueType == q && r.capturedAt.1 == today

/-- Earliest row of a candidate list (ORDER BY capturedAt ASC LIMIT 1);
on ties the first row in table order wins, as with SQLite rowid order. -/
def earliestAux (b : Row) : List Row → Row
  | [] => b
  | r :: rs => earliestAux (if timeLt r.capturedAt b.capturedAt then r else b) rs

/-- Optional earliest row, none exactly on the empty list. -/
def earliest : List Row → Option Row
  | [] => none
  | r :: rs => some (earliestAux r rs)

/-- The baseline SELECT of lolTracking.getOrCreateDailyBaseline. -/
def firstTodayRow (store : List Row) (acct : Nat) (q : String) (today : Nat) : Option Row :=
  earliest (store.filter (matchesToday acct q today))

/-- lolTracking.getOrCreateDailyBaseline (lines 29-78): return today's earliest
snapshot row if present, otherwise insert one from the provider payload
(no write when the provider has no data).  `provider` is what the
fetchCurrentLolRank call would return, `now` the current UTC instant. -/
def getOrCreateDailyBaseline (store : List Row) (acct : Nat) (q : String) (today : Nat)
    (provider : Option ProviderData) (now : Nat × Nat) : Option Row × List Row :=
  match firstTodayRow store acct q today with
  | some row => (some row, store)
  | none =>
    match provider with
    | none => (none, store)
    | some cur =>
      let row : Row :=
        ⟨store.length + 1, acct, q, cur.tier, cur.division, cur.lp, cur.wins, cur.losses, now⟩
      (some row, store ++ [row])

/-- lolTracking.getCurrentState (lines 81-93). -/
def getCurrentState (acct : Nat) (q : String) (provider : Option ProviderData) :
    Option CurrentState :=
  provider.map fun d => ⟨acct, q, d.tier, d.division, d.lp, d.wins, d.losses⟩

/-- Result dict of lolTracking.generateDailyReport. -/
structure Report where
  baseline : Option Row
  current : Option CurrentState
  diff : Diff
deriving DecidableEq, Repr

/-- lolTracking.generateDailyReport (lines 140-147).  `pBaseline` and
`pCurrent` are the payloads of the two independent provider calls. -/
def generateDailyReport (store : List Row) (acct : Nat) (q : String) (today : Nat)
    (pBaseline pCurrent : Option ProviderData) (now : Nat × Nat) : Report × List Row :=
  let res := getOrCreateDailyBaseline store acct q today pBaseline now
  let current := getCurrentState acct q pCurrent
  (⟨res.1, current, computeRankDiff (res.1.map Row.fields) (current.map CurrentState.fields)⟩,
    res.2)

end Lol

namespace Valorant

/-- Valorant tier order, src/services/valorantTracking.py VALORANT_TIER_ORDER. -/
def VALORANT_TIER_ORDER : List String :=
  ["IRON", "BRONZE", "SILVER", "GOLD", "PLATINUM", "DIAMOND", "ASCENDANT",
   "IMMORTAL", "RADIANT"]

/-- Rank fields read by valorantTracking.computeRankDiff. -/
structure Fields where
  tier : Option String
  division : Option String
  lp : Option Int
deriving DecidableEq, Repr

/-- Baseline/current dict produced by getDailySnapshot (snapshot fields
plus the queueType key it adds). -/
structure State where
  tier : Option String
  division : Option String
  lp : Option Int
  queueType : String
deriving DecidableEq, Repr

/-- Fields projection of a state dict. -/
def State.fields (s : State) : Fields := ⟨s.tier, s.division, s.lp⟩

/-- Result dict of valorantTracking.computeRankDiff. -/
structure Diff where
  lpDiff : Int
  rankUp : Bool
  rankDown : Bool
  tierChange : Option String
deriving DecidableEq, Repr

/-- Valorant tierIndex (valorantTracking.py lines 36-39). -/
def tierIndex (tier : Option String) : Int :=
  match tier with
  | some t =>
    if t ≠ "" ∧ upperStr t ∈ VALORANT_TIER_ORDER then
      (VALORANT_TIER_ORDER.indexOf (upperStr t) : Int)
    else -1
  | none => -1

/-- Valorant divisionValue (lines 41-43): str(division) looked up in the
1/2/3 table, anything else (including str(None)) maps to -1. -/
def divisionValue (division : Option String) : Int :=
  match division with
  | some "1" => 0
  | some "2" => 1
  | some "3" => 2
  | _ => -1

/-- The f-string "X -> Y" change description of valorantTracking.computeRankDiff. -/
def changeDesc (b c : Fields) : String :=
  renderOptStr b.tier ++ " " ++ renderOptStr b.division ++ " -> " ++
    renderOptStr c.tier ++ " " ++ renderOptStr c.division

/-- valorantTracking.computeRankDiff (lines 32-73). -/
def computeRankDiff (baseline current : Option Fields) : Diff :=
  match baseline, current with
  | some b, some c =>
    let baselineTierIdx := tierIndex b.tier
    let currentTierIdx := tierIndex c.tier
    let baselineDivVal := divisionValue b.division
    let currentDivVal := divisionValue c.division
    let lpDiff := c.lp.getD 0 - b.lp.getD 0
    if currentTierIdx > baselineTierIdx then
      ⟨lpDiff, true, false, some (changeDesc b c)⟩
    else if currentTierIdx < baselineTierIdx then
      ⟨lpDiff, false, true, some (changeDesc b c)⟩
    else if currentDivVal > baselineDivVal then
      ⟨lpDiff, true, false, none⟩
    else if currentDivVal < baselineDivVal then
      ⟨lpDiff, false, true, none⟩
    else
      ⟨lpDiff, false, false, none⟩
  | _, _ => ⟨0, false, false, none⟩

/-- One entry of the MMR-history payload used by
riot_api.fetchValorantDailySnapshot.  `date` is the already-parsed value of
parseValorantDate on the entry's date string, abstracted to a day index
with the same ordering as ISO date strings (none = missing/unparseable). -/
structure HistoryEntry where
  tierName : Option String
  rr : Option Int
  lastChange : Option Int
  date : Option Nat
deriving DecidableEq, Repr

/-- riot_api.parseValorantTier (lines 307-319). -/
def parseValorantTier (tierName : Option String) : Option String × Option String :=
  match tierName with
  | none => (none, none)
  | some s =>
    let parts := wordsOf (stripStr s)
    match parts.getLast? with
    | none => (none, none)
    | some last =>
      if isDigits last then
        let tier := upperStr (joinSpace parts.dropLast)
        ((if tier = "" then none else some tier), some last)
      else
        let tier := upperStr (joinSpace parts)
        ((if tier = "" then none else some tier), none)

/-- Pure core of riot_api.fetchValorantDailySnapshot (lines 93-146): derive
today's baseline and current rank from the live MMR history.  The account
lookup, API-key check and HTTP calls are external; `history` is the
payload's history list (none models missing/invalid payload). -/
def dailySnapshotFromHistory (history : Option (List HistoryEntry)) (today : Nat) :
    Option (Fields × Fields) :=
  match history with
  | none => none
  | some [] => none
  | some (latest :: rest) =>
    let h := latest :: rest
    let cur := parseValorantTier latest.tierName
    let currentRr := latest.rr
    let todays := h.filter fun e => e.date == some today
    let lpDiff := todays.foldl (fun acc e => acc + e.lastChange.getD 0) 0
    let baselineEntry := h.find? fun e =>
      match e.date with
      | some d => decide (d < today)
      | none => false
    match baselineEntry with
    | some be =>
      let base := parseValorantTier be.tierName
      some (⟨base.1, base.2, be.rr⟩, ⟨cur.1, cur.2, currentRr⟩)
    | none =>
      some (⟨cur.1, cur.2, currentRr.map (fun v => v - lpDiff)⟩, ⟨cur.1, cur.2, currentRr⟩)

/-- valorantTracking.getDailySnapshot (lines 19-29): wraps the snapshot
and stamps both sides with the requested queueType. -/
def getDailySnapshot (history : Option (List HistoryEntry)) (q : String) (today : Nat) :
    Option (State × State) :=
  (dailySnapshotFromHistory history today).map fun p =>
    (⟨p.1.tier, p.1.division, p.1.lp, q⟩, ⟨p.2.tier, p.2.division, p.2.lp, q⟩)

/-- Result dict of valorantTracking.generateDailyReport. -/
structure Report where
  baseline : Option State
  current : Option State
  diff : Diff
deriving DecidableEq, Repr

/-- valorantTracking.generateDailyReport (lines 76-83).  Note that no
snapshot table is consulted or written: both sides come from the live
provider history. -/
def generateDailyReport (history : Option (List HistoryEntry)) (q : String) (today : Nat) :
    Report :=
  match getDailySnapshot history q today with
  | none => ⟨none, none, computeRankDiff none none⟩
  | some (b, c) => ⟨some b, some c, computeRankDiff (some b.fields) (some c.fields)⟩

end Valorant

namespace Apex

/-- Rank fields read by apexTracking.computeRankDiff via dict.get.  Both the
snapshot rows and the current-state dicts always carry these keys, so the
'N/A' defaults of the source's .get calls never fire at these call sites. -/
structure Fields where
  rankName : Option String
  rankDiv : Option Int
  rankScore : Option Int
  ladderPosPlatform : Option Int
deriving DecidableEq, Repr

/-- Row of the apexRankSnapshot table (src/utils/database.py schema). -/
structure Row where
  id : Nat
  externalAccountId : Nat
  rankName : Option String
  rankDiv : Option Int
  rankScore : Option Int
  ladderPosPlatform : Option Int
  rankedSeason : Option String
  capturedAt : Nat × Nat
deriving DecidableEq, Repr

/-- Fields projection of a snapshot row. -/
def Row.fields (r : Row) : Fields := ⟨r.rankName, r.rankDiv, r.rankScore, r.ladderPosPlatform⟩

/-- Payload of a successful getApexRankSummary call (src/services/apex_api.py). -/
structure ProviderData where
  rankName : Option String
  rankDiv : Option Int
  rankScore : Option Int
  ladderPosPlatform : Option Int
  rankImg : Option String
  rankedSeason : Option String
  platform : Option String
  playerName : String
deriving DecidableEq, Repr

/-- Dict built by apexTracking.getCurrentState. -/
structure CurrentState where
  rankName : Option String
  rankDiv : Option Int
  rankScore : Option Int
  ladderPosPlatform : Option Int
  rankedSeason : Option String
  platform : Option String
  playerName : String
  rankImg : Option String
deriving DecidableEq, Repr

/-- Fields projection of a current-state dict. -/
def CurrentState.fields (c : CurrentState) : Fields :=
  ⟨c.rankName, c.rankDiv, c.rankScore, c.ladderPosPlatform⟩

/-- Result dict of apexTracking.computeRankDiff. -/
structure Diff where
  scoreDiff : Int
  ladderDiff : Option Int
  rankChange : Option String
deriving DecidableEq, Repr

/-- The f-string rank label of apexTracking.computeRankDiff:
rankDiv rendered through Python `or ''` (None and 0 both print empty),
then stripped. -/
def rankLabel (f : Fields) : String :=
  let divPart :=
    match f.rankDiv with
    | none => ""
    | some 0 => ""
    | some n => toString n
  stripStr (renderOptStr f.rankName ++ " " ++ divPart)

/-- apexTracking.computeRankDiff (lines 87-107). -/
def computeRankDiff (baseline current : Option Fields) : Diff :=
  match baseline, current with
  | some b, some c =>
    let baseRank := rankLabel b
    let currRank := rankLabel c
    let rankChange := if baseRank ≠ currRank then some (baseRank ++ " -> " ++ currRank) else none
    let ladderDiff :=
      match b.ladderPosPlatform, c.ladderPosPlatform with
      | some x, some y => some (y - x)
      | _, _ => none
    let scoreDiff := c.rankScore.getD 0 - b.rankScore.getD 0
    ⟨scoreDiff, ladderDiff, rankChange⟩
  | _, _ => ⟨0, none, none⟩

/-- Filter of the baseline SELECT: same account, captured today (the Apex
snapshot query has no queue column). -/
def matchesToday (acct : Nat) (today : Nat) (r : Row) : Bool :=
  r.externalAccountId == acct && r.capturedAt.1 == today

/-- Earliest row of a candidate list (ORDER BY capturedAt ASC LIMIT 1). -/
def earliestAux (b : Row) : List Row → Row
  | [] => b
  | r :: rs => earliestAux (if timeLt r.capturedAt b.capturedAt then r else b) rs

/-- Optional earliest row, none exactly on the empty list. -/
def earliest : List Row → Option Row
  | [] => none
  | r :: rs => some (earliestAux r rs)

/-- The baseline SELECT of apexTracking.getOrCreateDailyBaseline. -/
def firstTodayRow (store : List Row) (acct : Nat) (today : Nat) : Option Row :=
  earliest (store.filter (matchesToday acct today))

/-- apexTracking.getOrCreateDailyBaseline (lines 21-68). -/
def getOrCreateDailyBaseline (store : List Row) (acct : Nat) (today : Nat)
    (provider : Option ProviderData) (now : Nat × Nat) : Option Row × List Row :=
  match firstTodayRow store acct today with
  | some row => (some row, store)
  | none =>
    match provider with
    | none => (none, store)
    | some cur =>
      let row : Row :=
        ⟨store.length + 1, acct, cur.rankName, cur.rankDiv, cur.rankScore,
          cur.ladderPosPlatform, cur.rankedSeason, now⟩
      (some row, store ++ [row])

/-- apexTracking.getCurrentState (lines 71-84). -/
def getCurrentState (provider : Option ProviderData) : Option CurrentState :=
  provider.map fun d =>
    ⟨d.rankName, d.rankDiv, d.rankScore, d.ladderPosPlatform, d.rankedSeason,
      d.platform, d.playerName, d.rankImg⟩

/-- Result dict of apexTracking.generateDailyReport. -/
structure Report where
  baseline : Option Row
  current : Option CurrentState
  diff : Diff
deriving DecidableEq, Repr

/-- apexTracking.generateDailyReport (lines 110-117). -/
def generateDailyReport (store : List Row) (acct : Nat) (today : Nat)
    (pBaseline pCurrent : Option ProviderData) (now : Nat × Nat) : Report × List Row :=
  let res := getOrCreateDailyBaseline store acct today pBaseline now
  let current := getCurrentState pCurrent
  (⟨res.1, current, computeRankDiff (res.1.map Row.fields) (current.map CurrentState.fields)⟩,
    res.2)

end Apex

namespace RocketLeague

/-- Raw rank entry of the fetchRocketLeagueRanks payload
(src/services/rocket_api.py): the fields the tracking module reads.
`division` arrives as a number (stringified by normalizeRankEntry) and
`mmr` as an integer (int() of the source is the identity here). -/
structure RawEntry where
  playlist : Option String
  rank : Option String
  division : Option Int
  mmr : Option Int
  streak : Option String
deriving DecidableEq, Repr

/-- Normalized entry built by rocketLeagueTracking.normalizeRankEntry. -/
structure Entry where
  playlist : Option String
  rank : Option String
  division : Option String
  mmr : Option Int
  streak : Option String
deriving DecidableEq, Repr

/-- Row of the rocketLeagueRankSnapshot table (src/utils/database.py schema). -/
structure Row where
  id : Nat
  externalAccountId : Nat
  playlist : Option String
  rank : Option String
  division : Option String
  mmr : Option Int
  streak : Option String
  capturedAt : Nat × Nat
deriving DecidableEq, Repr

/-- Baseline dict shape returned by rocketLeagueTracking.getOrCreateDailyBaseline:
rows read back from the table carry an id, rows echoed straight from the
insert path do not (the source returns plain dicts without the id column
there), hence the optional id. -/
structure BRow where
  id : Option Nat
  externalAccountId : Nat
  playlist : Option String
  rank : Option String
  division : Option String
  mmr : Option Int
  streak : Option String
  capturedAt : Nat × Nat
deriving DecidableEq, Repr

/-- Dict view of a stored row (rowToDict). -/
def Row.toB (r : Row) : BRow :=
  ⟨some r.id, r.externalAccountId, r.playlist, r.rank, r.division, r.mmr, r.streak, r.capturedAt⟩

/-- The same baseline dict with the id column dropped, for comparisons
that ignore the representation difference between the two shapes. -/
def BRow.eraseId (b : BRow) : BRow :=
  ⟨none, b.externalAccountId, b.playlist, b.rank, b.division, b.mmr, b.streak, b.capturedAt⟩

/-- Result entry of rocketLeagueTracking.computeRankDiff. -/
structure DiffEntry where
  playlist : Option String
  mmrDiff : Option Int
  rankChange : Option String
  baselineMissing : Bool
deriving DecidableEq, Repr

/-- Exclusion set of rocketLeagueTracking.filterRanks (a Python set;
iteration order is irrelevant under any). -/
def EXCLUDED : List String := ["hoops", "rumble", "dropshot", "snow day", "snowday"]

/-- Substring test of filterRanks: some exclusion word occurs in the
lowercased playlist name (a missing playlist reads as ""). -/
def isExcludedPlaylist (p : Option String) : Bool :=
  EXCLUDED.any fun ex => containsSub ex.data (lowerStr (p.getD "")).data

/-- rocketLeagueTracking.filterRanks (lines 17-25). -/
def filterRanks (ranks : List RawEntry) : List RawEntry :=
  ranks.filter fun r => !isExcludedPlaylist r.playlist

/-- rocketLeagueTracking.normalizeRankEntry (lines 28-40). -/
def normalizeRankEntry (r : RawEntry) : Entry :=
  ⟨r.playlist, r.rank, r.division.map toString, r.mmr, r.streak⟩

/-- Last dict wins in the baselineByPlaylist comprehension of
computeRankDiff, then .get: the latest row with this playlist name. -/
def lastMatch (l : List BRow) (p : Option String) : Option BRow :=
  l.foldl (fun acc r => if r.playlist == p then some r else acc) none

/-- The f-string rank label of rocketLeagueTracking.computeRankDiff for the
baseline side: an absent playlist entry ({}) yields the 'N/A' default and an
empty division. -/
def baseLabel (b : Option BRow) : String :=
  match b with
  | none => stripStr ("N/A" ++ " " ++ "")
  | some r => stripStr (renderOptStr r.rank ++ " " ++ r.division.getD "")

/-- The f-string rank label for a current entry. -/
def currLabel (e : Entry) : String :=
  stripStr (renderOptStr e.rank ++ " " ++ e.division.getD "")

/-- rocketLeagueTracking.computeRankDiff (lines 119-141). -/
def computeRankDiff (baseline : List BRow) (current : List Entry) : List DiffEntry :=
  current.map fun e =>
    let base := lastMatch baseline e.playlist
    let mmrDiff :=
      match e.mmr, base.bind (fun r => r.mmr) with
      | some x, some y => some (x - y)
      | _, _ => none
    let rankChange :=
      if base.isSome ∧ baseLabel base ≠ currLabel e then
        some (baseLabel base ++ " -> " ++ currLabel e)
      else none
    ⟨e.playlist, mmrDiff, rankChange, base.isNone⟩

/-- One accumulation step of MIN(capturedAt). -/
def minStep (acc : Option (Nat × Nat)) (r : Row) : Option (Nat × Nat) :=
  match acc with
  | none => some r.capturedAt
  | some t => if timeLt r.capturedAt t then some r.capturedAt else some t

/-- Minimum capture timestamp of a row list (MIN(capturedAt)). -/
def minCaptured (l : List Row) : Option (Nat × Nat) :=
  l.foldl minStep none

/-- SQL ordering on playlist names: NULLs first, then string order. -/
def playlistLe (a b : Option String) : Bool :=
  match a, b with
  | none, _ => true
  | some _, none => false
  | some x, some y => lexLeChars x.data y.data

/-- ORDER BY playlist ASC on the baseline rows. -/
def sortByPlaylist (l : List Row) : List Row :=
  sortByKey (fun r s => playlistLe r.playlist s.playlist) l

/-- Rows inserted by the creation path of getOrCreateDailyBaseline, with
sequential rowids continuing the table. -/
def mkRows (startId : Nat) (acct : Nat) (now : Nat × Nat) : List Entry → List Row
  | [] => []
  | e :: es =>
    ⟨startId, acct, e.playlist, e.rank, e.division, e.mmr, e.streak, now⟩ ::
      mkRows (startId + 1) acct now es

/-- Baseline dicts echoed by the creation path (no id column). -/
def mkEcho (acct : Nat) (now : Nat × Nat) (l : List Entry) : List BRow :=
  l.map fun e => ⟨none, acct, e.playlist, e.rank, e.division, e.mmr, e.streak, now⟩

/-- rocketLeagueTracking.getOrCreateDailyBaseline (lines 47-108): read all
rows sharing today's minimum capture time (ordered by playlist), else
filter+normalize the provider ranks and insert them; an empty provider
result writes nothing, an entirely-filtered-out result returns [] and also
writes nothing. -/
def getOrCreateDailyBaseline (store : List Row) (acct : Nat) (today : Nat)
    (provider : Option (List RawEntry)) (now : Nat × Nat) : Option (List BRow) × List Row :=
  match minCaptured (store.filter fun r => r.externalAccountId == acct && r.capturedAt.1 == today) with
  | some t =>
    (some ((sortByPlaylist (store.filter fun r =>
        r.externalAccountId == acct && r.capturedAt == t)).map Row.toB), store)
  | none =>
    match provider with
    | none => (none, store)
    | some [] => (none, store)
    | some (r0 :: rs) =>
      let filteredRanks := filterRanks (r0 :: rs)
      if filteredRanks.isEmpty then (some [], store)
      else
        let normalizedRanks := filteredRanks.map normalizeRankEntry
        (some (mkEcho acct now normalizedRanks),
          store ++ mkRows (store.length + 1) acct now normalizedRanks)

/-- rocketLeagueTracking.getCurrentState (lines 111-116). -/
def getCurrentState (provider : Option (List RawEntry)) : Option (List Entry) :=
  match provider with
  | none => none
  | some [] => none
  | some (r0 :: rs) => some ((filterRanks (r0 :: rs)).map normalizeRankEntry)

/-- Result dict of rocketLeagueTracking.generateDailyReport. -/
structure Report where
  baseline : Option (List BRow)
  current : Option (List Entry)
  diff : List DiffEntry
deriving DecidableEq, Repr

/-- rocketLeagueTracking.generateDailyReport (lines 144-150). -/
def generateDailyReport (store : List Row) (acct : Nat) (today : Nat)
    (pBaseline pCurrent : Option (List RawEntry)) (now : Nat × Nat) : Report × List Row :=
  let res := getOrCreateDailyBaseline store acct today pBaseline now
  let current := getCurrentState pCurrent
  (⟨res.1, current, computeRankDiff (res.1.getD []) (current.getD [])⟩, res.2)

end RocketLeague

namespace DB

/-- Row of the reportPreference table (src/utils/database.py schema);
id and createdAt are never read by the modelled operations. -/
structure Pref where
  guildId : Nat
  userId : Nat
  externalAccountId : Nat
  queueType : String
  schedule : String
  channelId : Option String
  enabled : Bool
deriving DecidableEq, Repr

/-- Key match against the UNIQUE (guildId, userId, externalAccountId, queueType). -/
def Pref.keyIs (p : Pref) (g u a : Nat) (q : String) : Bool :=
  p.guildId == g && p.userId == u && p.externalAccountId == a && p.queueType == q

/-- database.getReportPreference (lines 355-363). -/
def getReportPreference (tbl : List Pref) (g u a : Nat) (q : String) : Option Pref :=
  tbl.find? fun p => p.keyIs g u a q

/-- database.countEnabledReportsForSchedule (lines 365-374). -/
def countEnabledReportsForSchedule (tbl : List Pref) (g : Nat) (s : String) : Nat :=
  (tbl.filter fun p => p.enabled && p.schedule == s && p.guildId == g).length

/-- database.upsertReportPreference (lines 376-407): idempotent success on an
identical enabled registration, rejection when the target slot is full,
otherwise insert-or-update with enabled=1. -/
def upsertReportPreference (tbl : List Pref) (g u a : Nat) (q s : String)
    (ch : Option String) (maxPerMinute : Nat) : Bool × List Pref :=
  let existing := getReportPreference tbl g u a q
  let idem :=
    match existing with
    | some p => p.schedule == s && p.enabled
    | none => false
  if idem then (true, tbl)
  else if maxPerMinute ≤ countEnabledReportsForSchedule tbl g s then (false, tbl)
  else if tbl.any fun p => p.keyIs g u a q then
    (true, tbl.map fun p =>
      if p.keyIs g u a q then ⟨p.guildId, p.userId, p.externalAccountId, p.queueType, s, ch, true⟩
      else p)
  else (true, tbl ++ [⟨g, u, a, q, s, ch, true⟩])

/-- Row of the externalAccount table: the columns the linking logic reads. -/
structure ExtAccount where
  id : Nat
  gameId : Nat
deriving DecidableEq, Repr

/-- Row of the guildMemberAccount table: the columns the linking logic reads. -/
structure GMA where
  guildId : Nat
  userId : Nat
  externalAccountId : Nat
  isPrimary : Bool
deriving DecidableEq, Repr

/-- Key match of a guildMemberAccount row against (guildId, userId,
externalAccountId), the WHERE clause shared by the linking statements. -/
def GMA.key3 (r : GMA) (g u a : Nat) : Bool :=
  r.guildId == g && r.userId == u && r.externalAccountId == a

/-- The subquery externalAccountId IN (SELECT id FROM externalAccount WHERE
gameId = ?), i.e. some account row carries this id and this game. -/
def inGameFor (accounts : List ExtAccount) (game acctId : Nat) : Bool :=
  accounts.any fun ea => ea.id == acctId && ea.gameId == game

/-- database.getGameIdForExternalAccount (lines 282-286). -/
def gameOf (accounts : List ExtAccount) (a : Nat) : Option Nat :=
  (accounts.find? fun ea => ea.id == a).map fun ea => ea.gameId

/-- database.hasPrimaryForGame (lines 288-299): join with externalAccount
on the account id, restricted to one game. -/
def hasPrimaryForGame (accounts : List ExtAccount) (tbl : List GMA) (g u game : Nat) : Bool :=
  tbl.any fun r =>
    r.guildId == g && r.userId == u && r.isPrimary &&
      inGameFor accounts game r.externalAccountId

/-- database.setPrimaryForGame (lines 301-320): clear every primary of this
(guild, user) among accounts of this game, then mark the given account. -/
def setPrimaryForGame (accounts : List ExtAccount) (tbl : List GMA) (g u game a : Nat) :
    List GMA :=
  let cleared := tbl.map fun r =>
    if r.guildId == g && r.userId == u && inGameFor accounts game r.externalAccountId then
      ⟨r.guildId, r.userId, r.externalAccountId, false⟩
    else r
  cleared.map fun r =>
    if r.key3 g u a then ⟨r.guildId, r.userId, r.externalAccountId, true⟩ else r

/-- The INSERT ... ON CONFLICT(guildId, userId, externalAccountId) DO UPDATE of
linkGuildMemberAccount. -/
def upsertGMA (tbl : List GMA) (g u a : Nat) (prim : Bool) : List GMA :=
  if tbl.any fun r => r.key3 g u a then
    tbl.map fun r =>
      if r.key3 g u a then ⟨r.guildId, r.userId, r.externalAccountId, prim⟩ else r
  else tbl ++ [⟨g, u, a, prim⟩]

/-- database.linkGuildMemberAccount (lines 322-353). -/
def linkGuildMemberAccount (accounts : List ExtAccount) (tbl : List GMA) (g u a : Nat)
    (forcePrimary : Bool) : Bool × List GMA :=
  match gameOf accounts a with
  | none => (false, tbl)
  | some game =>
    let shouldBePrimary := forcePrimary || !hasPrimaryForGame accounts tbl g u game
    let t1 := upsertGMA tbl g u a shouldBePrimary
    if shouldBePrimary then (true, setPrimaryForGame accounts t1 g u game a)
    else (true, t1)

/-- Distinctness of two rows on the (guildId, userId, externalAccountId) key. -/
def keyDist (r1 r2 : GMA) : Prop :=
  ¬(r1.guildId = r2.guildId ∧ r1.userId = r2.userId ∧
    r1.externalAccountId = r2.externalAccountId)

instance (r1 r2 : GMA) : Decidable (keyDist r1 r2) := by unfold keyDist; infer_instance

/-- Two rows violating "at most one primary per (guild, user, game)": both
primary for the same guild and user, with accounts resolving to the same game. -/
def primClash (accounts : List ExtAccount) (r1 r2 : GMA) : Prop :=
  r1.guildId = r2.guildId ∧ r1.userId = r2.userId ∧
    r1.isPrimary = true ∧ r2.isPrimary = true ∧
    gameOf accounts r1.externalAccountId = gameOf accounts r2.externalAccountId ∧
    (gameOf accounts r1.externalAccountId).isSome

instance (accounts : List ExtAccount) (r1 r2 : GMA) : Decidable (primClash accounts r1 r2) := by
  unfold primClash; infer_instance

/-- Uniqueness of the (guildId, userId, externalAccountId) key, the UNIQUE
constraint of the guildMemberAccount table. -/
def KeysUnique (tbl : List GMA) : Prop := tbl.Pairwise keyDist

/-- At most one primary row per (guild, user, game): no two rows of the table
clash in the sense of `primClash`. -/
def AtMostOnePrimary (accounts : List ExtAccount) (tbl : List GMA) : Prop :=
  tbl.Pairwise fun r1 r2 => ¬primClash accounts r1 r2

instance (tbl : List GMA) : Decidable (KeysUnique tbl) := by
  unfold KeysUnique; infer_instance

instance (accounts : List ExtAccount) (tbl : List GMA) :
    Decidable (AtMostOnePrimary accounts tbl) := by
  unfold AtMostOnePrimary; infer_instance

/-- The row update of the ON CONFLICT DO UPDATE branch of upsertGMA. -/
def updPrim (g u a : Nat) (prim : Bool) (r : GMA) : GMA :=
  if r.key3 g u a then ⟨r.guildId, r.userId, r.externalAccountId, prim⟩ else r

/-- The combined row update performed by the two UPDATE statements of
setPrimaryForGame, as a single pass. -/
def setPrimStep (accounts : List ExtAccount) (g u game a : Nat) (r : GMA) : GMA :=
  let r1 : GMA :=
    if r.guildId == g && r.userId == u && inGameFor accounts game r.externalAccountId then
      ⟨r.guildId, r.userId, r.externalAccountId, false⟩
    else r
  if r1.key3 g u a then ⟨r1.guildId, r1.userId, r1.externalAccountId, true⟩ else r1

end DB

theorem Lol.lolRankDiff_tierUp {b c : Lol.Fields}
    (h : Lol.tierIndex b.tier < Lol.tierIndex c.tier) :
    Lol.computeRankDiff (some b) (some c) =
      ⟨c.lp.getD 0 - b.lp.getD 0, true, false, some (Lol.changeDesc b c)⟩ := by
  simp only [Lol.computeRankDiff]
  split_ifs <;> first | rfl | omega

theorem Lol.lolRankDiff_tierDown {b c : Lol.Fields}
    (h : Lol.tierIndex c.tier < Lol.tierIndex b.tier) :
    Lol.computeRankDiff (some b) (some c) =
      ⟨c.lp.getD 0 - b.lp.getD 0, false, true, some (Lol.changeDesc b c)⟩ := by
  simp only [Lol.computeRankDiff]
  split_ifs <;> first | rfl | omega

theorem Lol.lolRankDiff_divUp {b c : Lol.Fields}
    (ht : Lol.tierIndex b.tier = Lol.tierIndex c.tier)
    (hd : Lol.divisionValue b.division < Lol.divisionValue c.division) :
    Lol.computeRankDiff (some b) (some c) =
      ⟨c.lp.getD 0 - b.lp.getD 0, true, false, none⟩ := by
  simp only [Lol.computeRankDiff]
  split_ifs <;> first | rfl | omega

theorem Lol.lolRankDiff_divDown {b c : Lol.Fields}
    (ht : Lol.tierIndex b.tier = Lol.tierIndex c.tier)
    (hd : Lol.divisionValue c.division < Lol.divisionValue b.division) :
    Lol.computeRankDiff (some b) (some c) =
      ⟨c.lp.getD 0 - b.lp.getD 0, false, true, none⟩ := by
  simp only [Lol.computeRankDiff]
  split_ifs <;> first | rfl | omega

theorem Lol.lolRankDiff_still {b c : Lol.Fields}
    (ht : Lol.tierIndex b.tier = Lol.tierIndex c.tier)
    (hd : Lol.divisionValue b.division = Lol.divisionValue c.division) :
    Lol.computeRankDiff (some b) (some c) =
      ⟨c.lp.getD 0 - b.lp.getD 0, false, false, none⟩ := by
  simp only [Lol.computeRankDiff]
  split_ifs <;> first | rfl | omega

theorem Valorant.valRankDiff_tierUp {b c : Valorant.Fields}
    (h : Valorant.tierIndex b.tier < Valorant.tierIndex c.tier) :
    Valorant.computeRankDiff (some b) (some c) =
      ⟨c.lp.getD 0 - b.lp.getD 0, true, false, some (Valorant.changeDesc b c)⟩ := by
  simp only [Valorant.computeRankDiff]
  split_ifs <;> first | rfl | omega

theorem Valorant.valRankDiff_tierDown {b c : Valorant.Fields}
    (h : Valorant.tierIndex c.tier < Valorant.tierIndex b.tier) :
    Valorant.computeRankDiff (some b) (some c) =
      ⟨c.lp.getD 0 - b.lp.getD 0, false, true, some (Valorant.changeDesc b c)⟩ := by
  simp only [Valorant.computeRankDiff]
  split_ifs <;> first | rfl | omega

theorem Valorant.valRankDiff_divUp {b c : Valorant.Fields}
    (ht : Valorant.tierIndex b.tier = Valorant.tierIndex c.tier)
    (hd : Valorant.divisionValue b.division < Valorant.divisionValue c.division) :
    Valorant.computeRankDiff (some b) (some c) =
      ⟨c.lp.getD 0 - b.lp.getD 0, true, false, none⟩ := by
  simp only [Valorant.computeRankDiff]
  split_ifs <;> first | rfl | omega

theorem Valorant.valRankDiff_divDown {b c : Valorant.Fields}
    (ht : Valorant.tierIndex b.tier = Valorant.tierIndex c.tier)
    (hd : Valorant.divisionValue c.division < Valorant.divisionValue b.division) :
    Valorant.computeRankDiff (some b) (some c) =
      ⟨c.lp.getD 0 - b.lp.getD 0, false, true, none⟩ := by
  simp only [Valorant.computeRankDiff]
  split_ifs <;> first | rfl | omega

theorem Valorant.valRankDiff_still {b c : Valorant.Fields}
    (ht : Valorant.tierIndex b.tier = Valorant.tierIndex c.tier)
    (hd : Valorant.divisionValue b.division = Valorant.divisionValue c.division) :
    Valorant.computeRankDiff (some b) (some c) =
      ⟨c.lp.getD 0 - b.lp.getD 0, false, false, none⟩ := by
  simp only [Valorant.computeRankDiff]
  split_ifs <;> first | rfl | omega

/-- C2: for League and Valorant computeRankDiff on non-empty sides, when the
tier indices differ the tier comparison alone fixes the rankUp/rankDown flags
regardless of division and points; with equal tier indices the division
comparison fixes them; equal tier and division yields neither flag. -/
theorem claim_C2 :
    (∀ b c : Lol.Fields, Lol.tierIndex b.tier ≠ Lol.tierIndex c.tier →
      (Lol.computeRankDiff (some b) (some c)).rankUp =
          decide (Lol.tierIndex b.tier < Lol.tierIndex c.tier) ∧
        (Lol.computeRankDiff (some b) (some c)).rankDown =
          decide (Lol.tierIndex c.tier < Lol.tierIndex b.tier)) ∧
    (∀ b c : Lol.Fields, Lol.tierIndex b.tier = Lol.tierIndex c.tier →
      (Lol.computeRankDiff (some b) (some c)).rankUp =
          decide (Lol.divisionValue b.division < Lol.divisionValue c.division) ∧
        (Lol.computeRankDiff (some b) (some c)).rankDown =
          decide (Lol.divisionValue c.division < Lol.divisionValue b.division)) ∧
    (∀ b c : Lol.Fields, b.tier = c.tier → b.division = c.division →
      (Lol.computeRankDiff (some b) (some c)).rankUp = false ∧
        (Lol.computeRankDiff (some b) (some c)).rankDown = false) ∧
    (∀ b c : Valorant.Fields, Valorant.tierIndex b.tier ≠ Valorant.tierIndex c.tier →
      (Valorant.computeRankDiff (some b) (some c)).rankUp =
          decide (Valorant.tierIndex b.tier < Valorant.tierIndex c.tier) ∧
        (Valorant.computeRankDiff (some b) (some c)).rankDown =
          decide (Valorant.tierIndex c.tier < Valorant.tierIndex b.tier)) ∧
    (∀ b c : Valorant.Fields, Valorant.tierIndex b.tier = Valorant.tierIndex c.tier →
      (Valorant.computeRankDiff (some b) (some c)).rankUp =
          decide (Valorant.divisionValue b.division < Valorant.divisionValue c.division) ∧
        (Valorant.computeRankDiff (some b) (some c)).rankDown =
          decide (Valorant.divisionValue c.division < Valorant.divisionValue b.division)) ∧
    (∀ b c : Valorant.Fields, b.tier = c.tier → b.division = c.division →
      (Valorant.computeRankDiff (some b) (some c)).rankUp = false ∧
        (Valorant.computeRankDiff (some b) (some c)).rankDown = false) := by
  refine ⟨?_, ?_, ?_, ?_, ?_, ?_⟩
  · intro b c h
    rcases lt_or_gt_of_ne h with h1 | h1
    · rw [Lol.lolRankDiff_tierUp h1]
      exact ⟨(decide_eq_true h1).symm, (decide_eq_false (by omega)).symm⟩
    · rw [Lol.lolRankDiff_tierDown h1]
      exact ⟨(decide_eq_false (by omega)).symm, (decide_eq_true h1).symm⟩
  · intro b c h
    rcases lt_trichotomy (Lol.divisionValue b.division) (Lol.divisionValue c.division) with
      h1 | h1 | h1
    · rw [Lol.lolRankDiff_divUp h h1]
      exact ⟨(decide_eq_true h1).symm, (decide_eq_false (by omega)).symm⟩
    · rw [Lol.lolRankDiff_still h h1]
      exact ⟨(decide_eq_false (by omega)).symm, (decide_eq_false (by omega)).symm⟩
    · rw [Lol.lolRankDiff_divDown h h1]
      exact ⟨(decide_eq_false (by omega)).symm, (decide_eq_true h1).symm⟩
  · intro b c ht hd
    rw [Lol.lolRankDiff_still (by rw [ht]) (by rw [hd])]
    exact ⟨rfl, rfl⟩
  · intro b c h
    rcases lt_or_gt_of_ne h with h1 | h1
    · rw [Valorant.valRankDiff_tierUp h1]
      exact ⟨(decide_eq_true h1).symm, (decide_eq_false (by omega)).symm⟩
    · rw [Valorant.valRankDiff_tierDown h1]
      exact ⟨(decide_eq_false (by omega)).symm, (decide_eq_true h1).symm⟩
  · intro b c h
    rcases lt_trichotomy (Valorant.divisionValue b.division)
      (Valorant.divisionValue c.division) with h1 | h1 | h1
    · rw [Valorant.valRankDiff_divUp h h1]
      exact ⟨(decide_eq_true h1).symm, (decide_eq_false (by omega)).symm⟩
    · rw [Valorant.valRankDiff_still h h1]
      exact ⟨(decide_eq_false (by omega)).symm, (decide_eq_false (by omega)).symm⟩
    · rw [Valorant.valRankDiff_divDown h h1]
      exact ⟨(decide_eq_false (by omega)).symm, (decide_eq_true h1).symm⟩
  · intro b c ht hd
    rw [Valorant.valRankDiff_still (by rw [ht]) (by rw [hd])]
    exact ⟨rfl, rfl⟩

/-- C2 witness: the six implications of claim_C2 instantiated at concrete
League and Valorant rank states. -/
theorem claim_C2_witness :
    ((Lol.computeRankDiff (some ⟨some "SILVER", some "IV", some 90⟩)
        (some ⟨some "GOLD", some "I", none⟩)).rankUp = true ∧
      (Lol.computeRankDiff (some ⟨some "SILVER", some "IV", some 90⟩)
        (some ⟨some "GOLD", some "I", none⟩)).rankDown = false) ∧
    ((Lol.computeRankDiff (some ⟨some "GOLD", some "II", some 5⟩)
        (some ⟨some "GOLD", some "I", some 1⟩)).rankUp = true ∧
      (Lol.computeRankDiff (some ⟨some "GOLD", some "II", some 5⟩)
        (some ⟨some "GOLD", some "I", some 1⟩)).rankDown = false) ∧
    ((Lol.computeRankDiff (some ⟨some "GOLD", some "II", some 10⟩)
        (some ⟨some "GOLD", some "II", some 99⟩)).rankUp = false ∧
      (Lol.computeRankDiff (some ⟨some "GOLD", some "II", some 10⟩)
        (some ⟨some "GOLD", some "II", some 99⟩)).rankDown = false) ∧
    ((Valorant.computeRankDiff (some ⟨some "ASCENDANT", some "3", some 90⟩)
        (some ⟨some "PLATINUM", some "1", some 0⟩)).rankUp = false ∧
      (Valorant.computeRankDiff (some ⟨some "ASCENDANT", some "3", some 90⟩)
        (some ⟨some "PLATINUM", some "1", some 0⟩)).rankDown = true) ∧
    ((Valorant.computeRankDiff (some ⟨some "GOLD", some "1", some 5⟩)
        (some ⟨some "GOLD", some "2", some 1⟩)).rankUp = true ∧
      (Valorant.computeRankDiff (some ⟨some "GOLD", some "1", some 5⟩)
        (some ⟨some "GOLD", some "2", some 1⟩)).rankDown = false) ∧
    ((Valorant.computeRankDiff (some ⟨some "RADIANT", none, some 10⟩)
        (some ⟨some "RADIANT", none, some 70⟩)).rankUp = false ∧
      (Valorant.computeRankDiff (some ⟨some "RADIANT", none, some 10⟩)
        (some ⟨some "RADIANT", none, some 70⟩)).rankDown = false) := by
  refine ⟨⟨?_, ?_⟩, ⟨?_, ?_⟩, ?_, ⟨?_, ?_⟩, ⟨?_, ?_⟩, ?_⟩
  · exact ((claim_C2.1 _ _ (by decide)).1).trans (by decide)
  · exact ((claim_C2.1 _ _ (by decide)).2).trans (by decide)
  · exact ((claim_C2.2.1 _ _ (by decide)).1).trans (by decide)
  · exact ((claim_C2.2.1 _ _ (by decide)).2).trans (by decide)
  · exact claim_C2.2.2.1 _ _ rfl rfl
  · exact ((claim_C2.2.2.2.1 _ _ (by decide)).1).trans (by decide)
  · exact ((claim_C2.2.2.2.1 _ _ (by decide)).2).trans (by decide)
  · exact ((claim_C2.2.2.2.2.1 _ _ (by decide)).1).trans (by decide)
  · exact ((claim_C2.2.2.2.2.1 _ _ (by decide)).2).trans (by decide)
  · exact claim_C2.2.2.2.2.2 _ _ rfl rfl

/-- C3: for League and Valorant computeRankDiff on non-empty sides, the
"X -> Y" change description is only emitted when tier or sub-division
differs, and never for points-only movement: with equal tier and equal
division (any points on both sides) no description is produced. -/
theorem claim_C3 :
    (∀ b c : Lol.Fields, (Lol.computeRankDiff (some b) (some c)).tierChange ≠ none →
      b.tier ≠ c.tier ∨ b.division ≠ c.division) ∧
    (∀ b c : Lol.Fields, b.tier = c.tier → b.division = c.division →
      (Lol.computeRankDiff (some b) (some c)).tierChange = none) ∧
    (∀ b c : Valorant.Fields, (Valorant.computeRankDiff (some b) (some c)).tierChange ≠ none →
      b.tier ≠ c.tier ∨ b.division ≠ c.division) ∧
    (∀ b c : Valorant.Fields, b.tier = c.tier → b.division = c.division →
      (Valorant.computeRankDiff (some b) (some c)).tierChange = none) := by
  have lolSame : ∀ b c : Lol.Fields, b.tier = c.tier → b.division = c.division →
      (Lol.computeRankDiff (some b) (some c)).tierChange = none := by
    intro b c ht hd
    rw [Lol.lolRankDiff_still (by rw [ht]) (by rw [hd])]
  have valSame : ∀ b c : Valorant.Fields, b.tier = c.tier → b.division = c.division →
      (Valorant.computeRankDiff (some b) (some c)).tierChange = none := by
    intro b c ht hd
    rw [Valorant.valRankDiff_still (by rw [ht]) (by rw [hd])]
  refine ⟨?_, lolSame, ?_, valSame⟩
  · intro b c h
    by_contra hcon
    push_neg at hcon
    exact h (lolSame b c hcon.1 hcon.2)
  · intro b c h
    by_contra hcon
    push_neg at hcon
    exact h (valSame b c hcon.1 hcon.2)

/-- C3 witness: claim_C3 instantiated at concrete states, one pair where a
description is emitted and one pair with points-only movement. -/
theorem claim_C3_witness :
    ((some "SILVER" : Option String) ≠ some "GOLD" ∨
      (some "II" : Option String) ≠ some "IV") ∧
    (Lol.computeRankDiff (some ⟨some "GOLD", some "II", some 10⟩)
      (some ⟨some "GOLD", some "II", some 45⟩)).tierChange = none ∧
    ((some "IMMORTAL" : Option String) ≠ some "RADIANT" ∨
      (some "3" : Option String) ≠ some "1") ∧
    (Valorant.computeRankDiff (some ⟨some "SILVER", some "1", some 0⟩)
      (some ⟨some "SILVER", some "1", some 17⟩)).tierChange = none := by
  refine ⟨?_, ?_, ?_, ?_⟩
  · exact claim_C3.1 ⟨some "SILVER", some "II", some 10⟩ ⟨some "GOLD", some "IV", some 0⟩
      (by decide)
  · exact claim_C3.2.1 _ _ rfl rfl
  · exact claim_C3.2.2.1 ⟨some "IMMORTAL", some "3", none⟩ ⟨some "RADIANT", some "1", none⟩
      (by decide)
  · exact claim_C3.2.2.2 _ _ rfl rfl

/-- C9: for the League computeRankDiff, a GOLD II baseline against a GOLD I
current (any points) reports rankUp with no change description, and a SILVER
baseline against a GOLD current (any divisions and points) reports rankUp
with a "SILVER ... -> GOLD ..." description. -/
theorem claim_C9 :
    (∀ lp1 lp2 : Option Int,
      (Lol.computeRankDiff (some ⟨some "GOLD", some "II", lp1⟩)
          (some ⟨some "GOLD", some "I", lp2⟩)).rankUp = true ∧
        (Lol.computeRankDiff (some ⟨some "GOLD", some "II", lp1⟩)
          (some ⟨some "GOLD", some "I", lp2⟩)).tierChange = none) ∧
    (∀ d1 d2 : Option String, ∀ lp1 lp2 : Option Int,
      (Lol.computeRankDiff (some ⟨some "SILVER", d1, lp1⟩)
          (some ⟨some "GOLD", d2, lp2⟩)).rankUp = true ∧
        (Lol.computeRankDiff (some ⟨some "SILVER", d1, lp1⟩)
          (some ⟨some "GOLD", d2, lp2⟩)).tierChange =
          some ("SILVER" ++ " " ++ renderOptStr d1 ++ " -> " ++
            "GOLD" ++ " " ++ renderOptStr d2)) := by
  constructor
  · intro lp1 lp2
    rw [@Lol.lolRankDiff_divUp ⟨some "GOLD", some "II", lp1⟩ ⟨some "GOLD", some "I", lp2⟩
      rfl (of_decide_eq_true rfl)]
    exact ⟨rfl, rfl⟩
  · intro d1 d2 lp1 lp2
    rw [@Lol.lolRankDiff_tierUp ⟨some "SILVER", d1, lp1⟩ ⟨some "GOLD", d2, lp2⟩
      (of_decide_eq_true rfl)]
    exact ⟨rfl, rfl⟩
/-- C10: in the League and Valorant computeRankDiff, a missing, empty or
unknown tier gets index -1, strictly below every recognized tier; hence a
non-empty baseline with unrecognized tier against a non-empty current with a
recognized tier reports rankUp and emits a tier-change description. -/
theorem claim_C10 :
    (∀ t : Option String,
      (t = none ∨ ∃ s, t = some s ∧ (s = "" ∨ upperStr s ∉ Lol.TIER_ORDER)) →
      Lol.tierIndex t = -1) ∧
    (∀ s : String, s ≠ "" → upperStr s ∈ Lol.TIER_ORDER → -1 < Lol.tierIndex (some s)) ∧
    (∀ b c : Lol.Fields,
      (b.tier = none ∨ ∃ s, b.tier = some s ∧ (s = "" ∨ upperStr s ∉ Lol.TIER_ORDER)) →
      (∃ s, c.tier = some s ∧ s ≠ "" ∧ upperStr s ∈ Lol.TIER_ORDER) →
      (Lol.computeRankDiff (some b) (some c)).rankUp = true ∧
        (Lol.computeRankDiff (some b) (some c)).tierChange ≠ none) ∧
    (∀ t : Option String,
      (t = none ∨ ∃ s, t = some s ∧ (s = "" ∨ upperStr s ∉ Valorant.VALORANT_TIER_ORDER)) →
      Valorant.tierIndex t = -1) ∧
    (∀ s : String, s ≠ "" → upperStr s ∈ Valorant.VALORANT_TIER_ORDER →
      -1 < Valorant.tierIndex (some s)) ∧
    (∀ b c : Valorant.Fields,
      (b.tier = none ∨
        ∃ s, b.tier = some s ∧ (s = "" ∨ upperStr s ∉ Valorant.VALORANT_TIER_ORDER)) →
      (∃ s, c.tier = some s ∧ s ≠ "" ∧ upperStr s ∈ Valorant.VALORANT_TIER_ORDER) →
      (Valorant.computeRankDiff (some b) (some c)).rankUp = true ∧
        (Valorant.computeRankDiff (some b) (some c)).tierChange ≠ none) := by
  have lolA : ∀ t : Option String,
      (t = none ∨ ∃ s, t = some s ∧ (s = "" ∨ upperStr s ∉ Lol.TIER_ORDER)) →
      Lol.tierIndex t = -1 := by
    intro t h
    rcases h with rfl | ⟨s, rfl, hs⟩
    · rfl
    · simp only [Lol.tierIndex]
      rw [if_neg]
      rintro ⟨h1, h2⟩
      rcases hs with rfl | h3
      · exact h1 rfl
      · exact h3 h2
  have lolB : ∀ s : String, s ≠ "" → upperStr s ∈ Lol.TIER_ORDER →
      -1 < Lol.tierIndex (some s) := by
    intro s h1 h2
    simp only [Lol.tierIndex]
    rw [if_pos ⟨h1, h2⟩]
    omega
  have valA : ∀ t : Option String,
      (t = none ∨ ∃ s, t = some s ∧ (s = "" ∨ upperStr s ∉ Valorant.VALORANT_TIER_ORDER)) →
      Valorant.tierIndex t = -1 := by
    intro t h
    rcases h with rfl | ⟨s, rfl, hs⟩
    · rfl
    · simp only [Valorant.tierIndex]
      rw [if_neg]
      rintro ⟨h1, h2⟩
      rcases hs with rfl | h3
      · exact h1 rfl
      · exact h3 h2
  have valB : ∀ s : String, s ≠ "" → upperStr s ∈ Valorant.VALORANT_TIER_ORDER →
      -1 < Valorant.tierIndex (some s) := by
    intro s h1 h2
    simp only [Valorant.tierIndex]
    rw [if_pos ⟨h1, h2⟩]
    omega
  refine ⟨lolA, lolB, ?_, valA, valB, ?_⟩
  · intro b c hb hc
    obtain ⟨s, hcs, h1, h2⟩ := hc
    have h : Lol.tierIndex b.tier < Lol.tierIndex c.tier := by
      have hbIdx := lolA b.tier hb
      have hcIdx : -1 < Lol.tierIndex c.tier := by rw [hcs]; exact lolB s h1 h2
      omega
    rw [Lol.lolRankDiff_tierUp h]
    exact ⟨rfl, by simp⟩
  · intro b c hb hc
    obtain ⟨s, hcs, h1, h2⟩ := hc
    have h : Valorant.tierIndex b.tier < Valorant.tierIndex c.tier := by
      have hbIdx := valA b.tier hb
      have hcIdx : -1 < Valorant.tierIndex c.tier := by rw [hcs]; exact valB s h1 h2
      omega
    rw [Valorant.valRankDiff_tierUp h]
    exact ⟨rfl, by simp⟩

/-- C10 witness: claim_C10 instantiated at the unknown League tier "UNRANKED"
and the Valorant-unknown tier "EMERALD" against recognized tiers. -/
theorem claim_C10_witness :
    Lol.tierIndex (some "UNRANKED") = -1 ∧
    (-1 : Int) < Lol.tierIndex (some "iron") ∧
    ((Lol.computeRankDiff (some ⟨none, none, none⟩)
        (some ⟨some "IRON", some "IV", some 0⟩)).rankUp = true ∧
      (Lol.computeRankDiff (some ⟨none, none, none⟩)
        (some ⟨some "IRON", some "IV", some 0⟩)).tierChange ≠ none) ∧
    Valorant.tierIndex (some "EMERALD") = -1 ∧
    (-1 : Int) < Valorant.tierIndex (some "Ascendant") ∧
    ((Valorant.computeRankDiff (some ⟨some "EMERALD", some "2", some 5⟩)
        (some ⟨some "IRON", some "1", some 0⟩)).rankUp = true ∧
      (Valorant.computeRankDiff (some ⟨some "EMERALD", some "2", some 5⟩)
        (some ⟨some "IRON", some "1", some 0⟩)).tierChange ≠ none) := by
  refine ⟨?_, ?_, ?_, ?_, ?_, ?_⟩
  · exact claim_C10.1 (some "UNRANKED") (Or.inr ⟨"UNRANKED", rfl, Or.inr (by decide)⟩)
  · exact claim_C10.2.1 "iron" (by decide) (by decide)
  · exact claim_C10.2.2.1 ⟨none, none, none⟩ ⟨some "IRON", some "IV", some 0⟩
      (Or.inl rfl) ⟨"IRON", rfl, by decide, by decide⟩
  · exact claim_C10.2.2.2.1 (some "EMERALD") (Or.inr ⟨"EMERALD", rfl, Or.inr (by decide)⟩)
  · exact claim_C10.2.2.2.2.1 "Ascendant" (by decide) (by decide)
  · exact claim_C10.2.2.2.2.2 ⟨some "EMERALD", some "2", some 5⟩ ⟨some "IRON", some "1", some 0⟩
      (Or.inr ⟨"EMERALD", rfl, Or.inr (by decide)⟩) ⟨"IRON", rfl, by decide, by decide⟩

theorem Lol.lolRankDiff_noBaseline (x : Option Lol.Fields) :
    Lol.computeRankDiff none x = ⟨0, false, false, none⟩ := by
  cases x <;> rfl

theorem Apex.apexRankDiff_noBaseline (x : Option Apex.Fields) :
    Apex.computeRankDiff none x = ⟨0, none, none⟩ := by
  cases x <;> rfl

/-- C4: for League and Apex, when no baseline row exists for the account (and
queue) today and the baseline-creating provider call returns no data,
generateDailyReport reports an absent baseline, writes nothing to the store,
still returns the independently fetched current state, and the diff is the
degraded all-zero/unknown value. -/
theorem claim_C4 :
    (∀ (store : List Lol.Row) (acct : Nat) (q : String) (today : Nat)
        (pCurrent : Option Lol.ProviderData) (now : Nat × Nat),
      Lol.firstTodayRow store acct q today = none →
      (Lol.generateDailyReport store acct q today none pCurrent now).1.baseline = none ∧
        (Lol.generateDailyReport store acct q today none pCurrent now).2 = store ∧
        (Lol.generateDailyReport store acct q today none pCurrent now).1.diff =
          ⟨0, false, false, none⟩ ∧
        (Lol.generateDailyReport store acct q today none pCurrent now).1.current =
          Lol.getCurrentState acct q pCurrent) ∧
    (∀ (store : List Apex.Row) (acct : Nat) (today : Nat)
        (pCurrent : Option Apex.ProviderData) (now : Nat × Nat),
      Apex.firstTodayRow store acct today = none →
      (Apex.generateDailyReport store acct today none pCurrent now).1.baseline = none ∧
        (Apex.generateDailyReport store acct today none pCurrent now).2 = store ∧
        (Apex.generateDailyReport store acct today none pCurrent now).1.diff =
          ⟨0, none, none⟩ ∧
        (Apex.generateDailyReport store acct today none pCurrent now).1.current =
          Apex.getCurrentState pCurrent) := by
  constructor
  · intro store acct q today pCurrent now h
    refine ⟨?_, ?_, ?_, ?_⟩ <;>
      simp only [Lol.generateDailyReport, Lol.getOrCreateDailyBaseline, h] <;>
      first
        | rfl
        | exact Lol.lolRankDiff_noBaseline _
  · intro store acct today pCurrent now h
    refine ⟨?_, ?_, ?_, ?_⟩ <;>
      simp only [Apex.generateDailyReport, Apex.getOrCreateDailyBaseline, h] <;>
      first
        | rfl
        | exact Apex.apexRankDiff_noBaseline _

/-- C4 witness: claim_C4 on an empty snapshot store with a provider outage on
the baseline call and live data on the current call. -/
theorem claim_C4_witness :
    ((Lol.generateDailyReport [] 7 "RANKED_SOLO_5x5" 3 none
        (some ⟨some "GOLD", some "I", some 10, some 1, some 2⟩) (3, 5)).1.baseline = none ∧
      (Lol.generateDailyReport [] 7 "RANKED_SOLO_5x5" 3 none
        (some ⟨some "GOLD", some "I", some 10, some 1, some 2⟩) (3, 5)).2 = [] ∧
      (Lol.generateDailyReport [] 7 "RANKED_SOLO_5x5" 3 none
        (some ⟨some "GOLD", some "I", some 10, some 1, some 2⟩) (3, 5)).1.diff =
        ⟨0, false, false, none⟩ ∧
      (Lol.generateDailyReport [] 7 "RANKED_SOLO_5x5" 3 none
        (some ⟨some "GOLD", some "I", some 10, some 1, some 2⟩) (3, 5)).1.current =
        Lol.getCurrentState 7 "RANKED_SOLO_5x5"
          (some ⟨some "GOLD", some "I", some 10, some 1, some 2⟩)) ∧
    ((Apex.generateDailyReport [] 7 3 none
        (some ⟨some "Platinum", some 4, some 5000, some 900, none, some "17", some "PC", "p"⟩)
        (3, 5)).1.baseline = none ∧
      (Apex.generateDailyReport [] 7 3 none
        (some ⟨some "Platinum", some 4, some 5000, some 900, none, some "17", some "PC", "p"⟩)
        (3, 5)).2 = [] ∧
      (Apex.generateDailyReport [] 7 3 none
        (some ⟨some "Platinum", some 4, some 5000, some 900, none, some "17", some "PC", "p"⟩)
        (3, 5)).1.diff = ⟨0, none, none⟩ ∧
      (Apex.generateDailyReport [] 7 3 none
        (some ⟨some "Platinum", some 4, some 5000, some 900, none, some "17", some "PC", "p"⟩)
        (3, 5)).1.current =
        Apex.getCurrentState
          (some ⟨some "Platinum", some 4, some 5000, some 900, none, some "17", some "PC", "p"⟩)) :=
  ⟨claim_C4.1 [] 7 "RANKED_SOLO_5x5" 3
      (some ⟨some "GOLD", some "I", some 10, some 1, some 2⟩) (3, 5) rfl,
    claim_C4.2 [] 7 3
      (some ⟨some "Platinum", some 4, some 5000, some 900, none, some "17", some "PC", "p"⟩)
      (3, 5) rfl⟩

/-- C7: an upsert for a (guild, user, account, queue) that already has an
enabled preference with the identical schedule is a no-op success: it returns
true and leaves the preference table unchanged, for every capacity value
(even 0, so no capacity check is involved). -/
theorem claim_C7 (tbl : List DB.Pref) (g u a : Nat) (q s : String) (ch : Option String)
    (maxPerMinute : Nat) (p : DB.Pref)
    (hfind : DB.getReportPreference tbl g u a q = some p)
    (hsched : p.schedule = s) (hen : p.enabled = true) :
    DB.upsertReportPreference tbl g u a q s ch maxPerMinute = (true, tbl) := by
  simp only [DB.upsertReportPreference, hfind]
  rw [if_pos]
  simp [hsched, hen]

/-- C7 witness: claim_C7 on a one-row table with capacity 0. -/
theorem claim_C7_witness :
    DB.upsertReportPreference [⟨1, 2, 3, "RANKED_SOLO_5x5", "09:00", some "42", true⟩]
      1 2 3 "RANKED_SOLO_5x5" "09:00" none 0 =
      (true, [⟨1, 2, 3, "RANKED_SOLO_5x5", "09:00", some "42", true⟩]) :=
  claim_C7 _ 1 2 3 "RANKED_SOLO_5x5" "09:00" none 0
    ⟨1, 2, 3, "RANKED_SOLO_5x5", "09:00", some "42", true⟩ rfl rfl rfl

/-- C6 amended: when the caller does not already hold an enabled preference
with the identical schedule, an upsert into a guild whose target schedule
slot is at or over capacity returns false and leaves the preference table
unchanged. -/
theorem claim_C6 (tbl : List DB.Pref) (g u a : Nat) (q s : String) (ch : Option String)
    (maxPerMinute : Nat)
    (hNoIdem : ∀ p, DB.getReportPreference tbl g u a q = some p →
      ¬(p.schedule = s ∧ p.enabled = true))
    (hFull : maxPerMinute ≤ DB.countEnabledReportsForSchedule tbl g s) :
    DB.upsertReportPreference tbl g u a q s ch maxPerMinute = (false, tbl) := by
  simp only [DB.upsertReportPreference]
  have hidem : (match DB.getReportPreference tbl g u a q with
      | some p => p.schedule == s && p.enabled
      | none => false) = false := by
    cases hfind : DB.getReportPreference tbl g u a q with
    | none => rfl
    | some p =>
      have hnp := hNoIdem p hfind
      by_cases h1 : p.schedule = s
      · by_cases h2 : p.enabled = true
        · exact absurd ⟨h1, h2⟩ hnp
        · simp [h2]
      · simp [h1]
  rw [hidem]
  simp only [Bool.false_eq_true, if_false]
  rw [if_pos hFull]

/-- C6 witness: claim_C6 where another user's enabled registration already
fills the "09:00" slot of guild 1 at capacity 1. -/
theorem claim_C6_witness :
    1 ≤ DB.countEnabledReportsForSchedule
        [⟨1, 9, 9, "RANKED_SOLO_5x5", "09:00", none, true⟩] 1 "09:00" ∧
    DB.upsertReportPreference [⟨1, 9, 9, "RANKED_SOLO_5x5", "09:00", none, true⟩]
        1 2 3 "RANKED_SOLO_5x5" "09:00" none 1 =
      (false, [⟨1, 9, 9, "RANKED_SOLO_5x5", "09:00", none, true⟩]) :=
  ⟨by decide,
    claim_C6 _ 1 2 3 "RANKED_SOLO_5x5" "09:00" none 1
      (by intro p hp; simp [DB.getReportPreference, DB.Pref.keyIs] at hp) (by decide)⟩

/-- C6 counterexample: the claim as stated fails on the idempotent
re-registration path: with guild 1's "09:00" slot at capacity (count 1 ≥
capacity 1), the holder of that very registration calls upsert again and the
call returns true, not the claimed rejection. -/
theorem claim_C6_counterexample :
    1 ≤ DB.countEnabledReportsForSchedule
        [⟨1, 2, 3, "RANKED_SOLO_5x5", "09:00", none, true⟩] 1 "09:00" ∧
    (DB.upsertReportPreference [⟨1, 2, 3, "RANKED_SOLO_5x5", "09:00", none, true⟩]
        1 2 3 "RANKED_SOLO_5x5" "09:00" none 1).1 = true := by
  decide

theorem DB.upsertGMA_eq (tbl : List DB.GMA) (g u a : Nat) (prim : Bool) :
    DB.upsertGMA tbl g u a prim =
      if tbl.any fun r => r.key3 g u a then tbl.map (DB.updPrim g u a prim)
      else tbl ++ [⟨g, u, a, prim⟩] := rfl

theorem DB.setPrimaryForGame_eq_map (accounts : List DB.ExtAccount) (tbl : List DB.GMA)
    (g u game a : Nat) :
    DB.setPrimaryForGame accounts tbl g u game a =
      tbl.map (DB.setPrimStep accounts g u game a) := by
  unfold DB.setPrimaryForGame
  rw [List.map_map]
  rfl

theorem DB.updPrim_guildId (g u a : Nat) (prim : Bool) (r : DB.GMA) :
    (DB.updPrim g u a prim r).guildId = r.guildId := by
  unfold DB.updPrim; split_ifs <;> rfl

theorem DB.updPrim_userId (g u a : Nat) (prim : Bool) (r : DB.GMA) :
    (DB.updPrim g u a prim r).userId = r.userId := by
  unfold DB.updPrim; split_ifs <;> rfl

theorem DB.updPrim_ext (g u a : Nat) (prim : Bool) (r : DB.GMA) :
    (DB.updPrim g u a prim r).externalAccountId = r.externalAccountId := by
  unfold DB.updPrim; split_ifs <;> rfl

theorem DB.updPrim_key3 (g u a : Nat) (prim : Bool) (r : DB.GMA) (g1 u1 a1 : Nat) :
    (DB.updPrim g u a prim r).key3 g1 u1 a1 = r.key3 g1 u1 a1 := by
  unfold DB.GMA.key3
  rw [DB.updPrim_guildId, DB.updPrim_userId, DB.updPrim_ext]

theorem DB.updPrim_id (g u a : Nat) (prim : Bool) (r : DB.GMA)
    (h : r.key3 g u a = false) : DB.updPrim g u a prim r = r := by
  unfold DB.updPrim
  rw [if_neg]
  simp [h]

theorem DB.updPrim_isPrimary_key (g u a : Nat) (prim : Bool) (r : DB.GMA)
    (h : r.key3 g u a = true) : (DB.updPrim g u a prim r).isPrimary = prim := by
  unfold DB.updPrim
  rw [if_pos h]

theorem DB.setPrimStep_guildId (accounts : List DB.ExtAccount) (g u game a : Nat) (r : DB.GMA) :
    (DB.setPrimStep accounts g u game a r).guildId = r.guildId := by
  simp only [DB.setPrimStep]; split_ifs <;> rfl

theorem DB.setPrimStep_userId (accounts : List DB.ExtAccount) (g u game a : Nat) (r : DB.GMA) :
    (DB.setPrimStep accounts g u game a r).userId = r.userId := by
  simp only [DB.setPrimStep]; split_ifs <;> rfl

theorem DB.setPrimStep_ext (accounts : List DB.ExtAccount) (g u game a : Nat) (r : DB.GMA) :
    (DB.setPrimStep accounts g u game a r).externalAccountId = r.externalAccountId := by
  simp only [DB.setPrimStep]; split_ifs <;> rfl

theorem DB.key3_parts {r : DB.GMA} {g u a : Nat} (h : r.key3 g u a = true) :
    r.guildId = g ∧ r.userId = u ∧ r.externalAccountId = a := by
  simpa [DB.GMA.key3, Bool.and_eq_true, beq_iff_eq, and_assoc] using h

theorem DB.key3_of_parts {r : DB.GMA} {g u a : Nat}
    (h1 : r.guildId = g) (h2 : r.userId = u) (h3 : r.externalAccountId = a) :
    r.key3 g u a = true := by
  simp [DB.GMA.key3, h1, h2, h3]

theorem DB.setPrimStep_isPrimary_key (accounts : List DB.ExtAccount) (g u game a : Nat)
    (r : DB.GMA) (h : r.key3 g u a = true) :
    (DB.setPrimStep accounts g u game a r).isPrimary = true := by
  obtain ⟨h1, h2, h3⟩ := DB.key3_parts h
  simp only [DB.setPrimStep]
  split_ifs <;> simp_all [DB.GMA.key3]

theorem DB.setPrimStep_isPrimary_cleared (accounts : List DB.ExtAccount) (g u game a : Nat)
    (r : DB.GMA) (hk : r.key3 g u a = false) (h1 : r.guildId = g) (h2 : r.userId = u)
    (h3 : DB.inGameFor accounts game r.externalAccountId = true) :
    (DB.setPrimStep accounts g u game a r).isPrimary = false := by
  simp only [DB.setPrimStep]
  split_ifs <;> simp_all [DB.GMA.key3]

theorem DB.setPrimStep_id (accounts : List DB.ExtAccount) (g u game a : Nat)
    (r : DB.GMA) (hk : r.key3 g u a = false)
    (hb : ¬(r.guildId = g ∧ r.userId = u ∧ DB.inGameFor accounts game r.externalAccountId = true)) :
    DB.setPrimStep accounts g u game a r = r := by
  simp only [DB.setPrimStep]
  split_ifs <;> simp_all [DB.GMA.key3]

theorem DB.gameOf_inGameFor {accounts : List DB.ExtAccount} {n game : Nat}
    (h : DB.gameOf accounts n = some game) : DB.inGameFor accounts game n = true := by
  unfold DB.gameOf at h
  obtain ⟨ea, hfind, hgid⟩ := Option.map_eq_some'.mp h
  have hmem : ea ∈ accounts := List.mem_of_find?_eq_some hfind
  have hid : (ea.id == n) = true := by simpa using List.find?_some hfind
  unfold DB.inGameFor
  rw [List.any_eq_true]
  refine ⟨ea, hmem, ?_⟩
  rw [Bool.and_eq_true]
  exact ⟨hid, by simp [hgid]⟩

theorem DB.upsertGMA_pairwise (accounts : List DB.ExtAccount) (tbl : List DB.GMA)
    (g u a : Nat) (prim : Bool) (hkeys : DB.KeysUnique tbl)
    (hinv : DB.AtMostOnePrimary accounts tbl) :
    (DB.upsertGMA tbl g u a prim).Pairwise fun x y =>
      DB.keyDist x y ∧
        (¬DB.primClash accounts x y ∨ x.key3 g u a = true ∨ y.key3 g u a = true) := by
  rw [DB.upsertGMA_eq]
  split_ifs with hany
  · rw [List.pairwise_map]
    refine (hkeys.and hinv).imp ?_
    rintro x y ⟨hkd, hnc⟩
    constructor
    · unfold DB.keyDist at hkd ⊢
      rw [DB.updPrim_guildId, DB.updPrim_userId, DB.updPrim_ext,
        DB.updPrim_guildId, DB.updPrim_userId, DB.updPrim_ext]
      exact hkd
    · by_cases hx : x.key3 g u a = true
      · exact Or.inr (Or.inl (by rw [DB.updPrim_key3]; exact hx))
      · by_cases hy : y.key3 g u a = true
        · exact Or.inr (Or.inr (by rw [DB.updPrim_key3]; exact hy))
        · rw [DB.updPrim_id g u a prim x (by simpa using hx),
            DB.updPrim_id g u a prim y (by simpa using hy)]
          exact Or.inl hnc
  · rw [List.pairwise_append]
    refine ⟨(hkeys.and hinv).imp (fun h => ⟨h.1, Or.inl h.2⟩), by simp, ?_⟩
    intro x hx y hy
    rcases List.mem_singleton.mp hy with rfl
    constructor
    · rintro ⟨h1, h2, h3⟩
      have hkey : x.key3 g u a = true := DB.key3_of_parts h1 h2 h3
      have hfalse : x.key3 g u a = false := by
        by_contra hcon
        have hT : (tbl.any fun r => r.key3 g u a) = true :=
          List.any_eq_true.mpr ⟨x, hx, by simpa using hcon⟩
        exact hany hT
      rw [hkey] at hfalse
      exact Bool.noConfusion hfalse
    · exact Or.inr (Or.inr (show DB.GMA.key3 ⟨g, u, a, prim⟩ g u a = true by simp [DB.GMA.key3]))

theorem DB.setPrimStep_noClash (accounts : List DB.ExtAccount) (g u game a : Nat)
    (hgame : DB.gameOf accounts a = some game) :
    ∀ {x y : DB.GMA},
      (DB.keyDist x y ∧
        (¬DB.primClash accounts x y ∨ x.key3 g u a = true ∨ y.key3 g u a = true)) →
      ¬DB.primClash accounts (DB.setPrimStep accounts g u game a x)
        (DB.setPrimStep accounts g u game a y) := by
  rintro x y ⟨hkd, hrest⟩ hc
  obtain ⟨c1, c2, c3, c4, c5, c6⟩ := hc
  rw [DB.setPrimStep_guildId, DB.setPrimStep_guildId] at c1
  rw [DB.setPrimStep_userId, DB.setPrimStep_userId] at c2
  rw [DB.setPrimStep_ext, DB.setPrimStep_ext] at c5
  rw [DB.setPrimStep_ext] at c6
  by_cases hx : x.key3 g u a = true
  · obtain ⟨hxg, hxu, hxa⟩ := DB.key3_parts hx
    by_cases hy : y.key3 g u a = true
    · obtain ⟨hyg, hyu, hya⟩ := DB.key3_parts hy
      exact hkd ⟨hxg.trans hyg.symm, hxu.trans hyu.symm, hxa.trans hya.symm⟩
    · have hin : DB.inGameFor accounts game y.externalAccountId = true := by
        apply DB.gameOf_inGameFor
        rw [← c5, hxa]
        exact hgame
      have hfalse := DB.setPrimStep_isPrimary_cleared accounts g u game a y
        (by simpa using hy) (c1 ▸ hxg) (c2 ▸ hxu) hin
      rw [c4] at hfalse
      exact Bool.noConfusion hfalse
  · by_cases hy : y.key3 g u a = true
    · obtain ⟨hyg, hyu, hya⟩ := DB.key3_parts hy
      have hin : DB.inGameFor accounts game x.externalAccountId = true := by
        apply DB.gameOf_inGameFor
        rw [c5, hya]
        exact hgame
      have hfalse := DB.setPrimStep_isPrimary_cleared accounts g u game a x
        (by simpa using hx) (c1.symm ▸ hyg) (c2.symm ▸ hyu) hin
      rw [c3] at hfalse
      exact Bool.noConfusion hfalse
    · by_cases bx : x.guildId = g ∧ x.userId = u ∧
          DB.inGameFor accounts game x.externalAccountId = true
      · have hfalse := DB.setPrimStep_isPrimary_cleared accounts g u game a x
          (by simpa using hx) bx.1 bx.2.1 bx.2.2
        rw [c3] at hfalse
        exact Bool.noConfusion hfalse
      · by_cases bby : y.guildId = g ∧ y.userId = u ∧
            DB.inGameFor accounts game y.externalAccountId = true
        · have hfalse := DB.setPrimStep_isPrimary_cleared accounts g u game a y
            (by simpa using hy) bby.1 bby.2.1 bby.2.2
          rw [c4] at hfalse
          exact Bool.noConfusion hfalse
        · have hex := DB.setPrimStep_id accounts g u game a x (by simpa using hx) bx
          have hey := DB.setPrimStep_id accounts g u game a y (by simpa using hy) bby
          rw [hex] at c3
          rw [hey] at c4
          rcases hrest with hnc | hk | hk
          · exact hnc ⟨c1, c2, c3, c4, c5, c6⟩
          · exact hx hk
          · exact hy hk

theorem DB.upsertGMA_inv_false (accounts : List DB.ExtAccount) (tbl : List DB.GMA)
    (g u a : Nat) (hinv : DB.AtMostOnePrimary accounts tbl) :
    DB.AtMostOnePrimary accounts (DB.upsertGMA tbl g u a false) := by
  rw [DB.upsertGMA_eq]
  unfold DB.AtMostOnePrimary at hinv ⊢
  split_ifs with hany
  · rw [List.pairwise_map]
    refine hinv.imp ?_
    intro x y hnc hc
    obtain ⟨c1, c2, c3, c4, c5, c6⟩ := hc
    rw [DB.updPrim_guildId, DB.updPrim_guildId] at c1
    rw [DB.updPrim_userId, DB.updPrim_userId] at c2
    rw [DB.updPrim_ext, DB.updPrim_ext] at c5
    rw [DB.updPrim_ext] at c6
    by_cases hx : x.key3 g u a = true
    · have hfalse := DB.updPrim_isPrimary_key g u a false x hx
      rw [c3] at hfalse
      exact Bool.noConfusion hfalse
    · by_cases hy : y.key3 g u a = true
      · have hfalse := DB.updPrim_isPrimary_key g u a false y hy
        rw [c4] at hfalse
        exact Bool.noConfusion hfalse
      · rw [DB.updPrim_id g u a false x (by simpa using hx)] at c3
        rw [DB.updPrim_id g u a false y (by simpa using hy)] at c4
        exact hnc ⟨c1, c2, c3, c4, c5, c6⟩
  · rw [List.pairwise_append]
    refine ⟨hinv, by simp, ?_⟩
    intro x _ y hy
    rcases List.mem_singleton.mp hy with rfl
    intro hc
    exact Bool.noConfusion hc.2.2.2.1

theorem DB.upsertGMA_mem_key (tbl : List DB.GMA) (g u a : Nat) (prim : Bool) :
    ∃ r ∈ DB.upsertGMA tbl g u a prim, r.key3 g u a = true := by
  rw [DB.upsertGMA_eq]
  split_ifs with hany
  · obtain ⟨r, hr, hk⟩ := List.any_eq_true.mp hany
    exact ⟨DB.updPrim g u a prim r, List.mem_map_of_mem _ hr,
      by rw [DB.updPrim_key3]; exact hk⟩
  · exact ⟨⟨g, u, a, prim⟩, by simp, by simp [DB.GMA.key3]⟩

/-- C8: every successful linkGuildMemberAccount preserves the invariant that
at most one guildMemberAccount row is primary per (guild, user, game), and
when the (guild, user) pair has no primary for the linked account's game, the
newly linked account ends up marked primary (auto-promotion). -/
theorem claim_C8 (accounts : List DB.ExtAccount) (tbl : List DB.GMA) (g u a : Nat)
    (force : Bool) (game : Nat) (hgame : DB.gameOf accounts a = some game)
    (hkeys : DB.KeysUnique tbl) (hinv : DB.AtMostOnePrimary accounts tbl) :
    (DB.linkGuildMemberAccount accounts tbl g u a force).1 = true ∧
    DB.AtMostOnePrimary accounts (DB.linkGuildMemberAccount accounts tbl g u a force).2 ∧
    (DB.hasPrimaryForGame accounts tbl g u game = false →
      ∃ r ∈ (DB.linkGuildMemberAccount accounts tbl g u a force).2,
        r.guildId = g ∧ r.userId = u ∧ r.externalAccountId = a ∧ r.isPrimary = true) := by
  simp only [DB.linkGuildMemberAccount, hgame]
  by_cases hs : (force || !DB.hasPrimaryForGame accounts tbl g u game) = true
  · rw [if_pos hs]
    refine ⟨rfl, ?_, ?_⟩
    · unfold DB.AtMostOnePrimary
      rw [DB.setPrimaryForGame_eq_map, List.pairwise_map]
      exact (DB.upsertGMA_pairwise accounts tbl g u a _ hkeys hinv).imp
        (DB.setPrimStep_noClash accounts g u game a hgame)
    · intro _
      obtain ⟨r, hr, hk⟩ := DB.upsertGMA_mem_key tbl g u a
        (force || !DB.hasPrimaryForGame accounts tbl g u game)
      obtain ⟨h1, h2, h3⟩ := DB.key3_parts hk
      refine ⟨DB.setPrimStep accounts g u game a r, ?_, ?_, ?_, ?_, ?_⟩
      · rw [DB.setPrimaryForGame_eq_map]
        exact List.mem_map_of_mem _ hr
      · rw [DB.setPrimStep_guildId]; exact h1
      · rw [DB.setPrimStep_userId]; exact h2
      · rw [DB.setPrimStep_ext]; exact h3
      · exact DB.setPrimStep_isPrimary_key accounts g u game a r hk
  · have hf : (force || !DB.hasPrimaryForGame accounts tbl g u game) = false := by
      revert hs
      cases force || !DB.hasPrimaryForGame accounts tbl g u game <;> simp
    rw [if_neg hs]
    refine ⟨rfl, ?_, ?_⟩
    · rw [hf]
      exact DB.upsertGMA_inv_false accounts tbl g u a hinv
    · intro hnp
      exfalso
      apply hs
      rw [hnp]
      simp

/-- C8 witness: claim_C8 on a one-account store where user 2 in guild 1 has
no primary for game 1 yet; the freshly linked account 3 is auto-promoted. -/
theorem claim_C8_witness :
    (DB.linkGuildMemberAccount [⟨3, 1⟩] [] 1 2 3 false).1 = true ∧
    DB.AtMostOnePrimary [⟨3, 1⟩] (DB.linkGuildMemberAccount [⟨3, 1⟩] [] 1 2 3 false).2 ∧
    (DB.hasPrimaryForGame [⟨3, 1⟩] [] 1 2 1 = false →
      ∃ r ∈ (DB.linkGuildMemberAccount [⟨3, 1⟩] [] 1 2 3 false).2,
        r.guildId = 1 ∧ r.userId = 2 ∧ r.externalAccountId = 3 ∧ r.isPrimary = true) :=
  claim_C8 [⟨3, 1⟩] [] 1 2 3 false 1 rfl (by decide) (by decide)

theorem RocketLeague.mem_mkRows_playlist {r : RocketLeague.Row} :
    ∀ (l : List RocketLeague.Entry) (i acct : Nat) (now : Nat × Nat),
      r ∈ RocketLeague.mkRows i acct now l → ∃ e ∈ l, r.playlist = e.playlist := by
  intro l
  induction l with
  | nil => intro i acct now h; cases h
  | cons e es ih =>
    intro i acct now h
    rcases h with _ | ⟨_, hmem⟩
    · exact ⟨e, List.mem_cons_self e es, rfl⟩
    · obtain ⟨e', he', hp⟩ := ih (i + 1) acct now hmem
      exact ⟨e', List.mem_cons_of_mem e he', hp⟩

theorem RocketLeague.filterRanks_not_excluded {ranks : List RocketLeague.RawEntry}
    {r : RocketLeague.RawEntry} (h : r ∈ RocketLeague.filterRanks ranks) :
    RocketLeague.isExcludedPlaylist r.playlist = false := by
  have h2 := (List.mem_filter.mp h).2
  simpa using h2

/-- C5: Rocket League exclusion filtering.  Concretely: with a stored baseline
for playlists [Doubles, Solo Duel] and a live reading for [Doubles, Ranked
Hoops], the computed diff has exactly one entry, for Doubles, with
baselineMissing = false, and neither Solo Duel nor Ranked Hoops appears.
Generally: filterRanks output never matches the exclusion set, a
getOrCreateDailyBaseline call only ever stores rows whose playlist is not
excluded, and every getCurrentState entry has a non-excluded playlist. -/
theorem claim_C5 :
    (RocketLeague.computeRankDiff
        [⟨some 1, 5, some "Doubles", some "Champion I", some "3", some 800, some "W2", (4, 0)⟩,
          ⟨some 2, 5, some "Solo Duel", some "Diamond III", some "2", some 600, none, (4, 0)⟩]
        ((RocketLeague.getCurrentState
          (some [⟨some "Doubles", some "Champion I", some 3, some 815, some "W3"⟩,
            ⟨some "Ranked Hoops", some "Gold II", some 2, some 500, none⟩])).getD []) =
      [⟨some "Doubles", some 15, none, false⟩]) ∧
    (∀ e ∈ RocketLeague.computeRankDiff
        [⟨some 1, 5, some "Doubles", some "Champion I", some "3", some 800, some "W2", (4, 0)⟩,
          ⟨some 2, 5, some "Solo Duel", some "Diamond III", some "2", some 600, none, (4, 0)⟩]
        ((RocketLeague.getCurrentState
          (some [⟨some "Doubles", some "Champion I", some 3, some 815, some "W3"⟩,
            ⟨some "Ranked Hoops", some "Gold II", some 2, some 500, none⟩])).getD []),
      e.playlist ≠ some "Solo Duel" ∧ e.playlist ≠ some "Ranked Hoops") ∧
    (∀ (ranks : List RocketLeague.RawEntry), ∀ r ∈ RocketLeague.filterRanks ranks,
      RocketLeague.isExcludedPlaylist r.playlist = false) ∧
    (∀ (store : List RocketLeague.Row) (acct today : Nat)
        (provider : Option (List RocketLeague.RawEntry)) (now : Nat × Nat),
      ∀ r ∈ (RocketLeague.getOrCreateDailyBaseline store acct today provider now).2,
        r ∈ store ∨ RocketLeague.isExcludedPlaylist r.playlist = false) ∧
    (∀ (provider : Option (List RocketLeague.RawEntry)) (l : List RocketLeague.Entry),
      RocketLeague.getCurrentState provider = some l →
      ∀ e ∈ l, RocketLeague.isExcludedPlaylist e.playlist = false) := by
  refine ⟨by decide, by decide, ?_, ?_, ?_⟩
  · intro ranks r hr
    exact RocketLeague.filterRanks_not_excluded hr
  · intro store acct today provider now r hr
    unfold RocketLeague.getOrCreateDailyBaseline at hr
    split at hr
    · exact Or.inl hr
    · split at hr
      · exact Or.inl hr
      · exact Or.inl hr
      · dsimp only at hr
        split at hr
        · exact Or.inl hr
        · rcases List.mem_append.mp hr with hmem | hmem
          · exact Or.inl hmem
          · obtain ⟨e, he, hp⟩ :=
              RocketLeague.mem_mkRows_playlist _ (store.length + 1) acct now hmem
            obtain ⟨raw, hraw, hne⟩ := List.mem_map.mp he
            refine Or.inr ?_
            rw [hp, ← hne]
            exact RocketLeague.filterRanks_not_excluded hraw
  · intro provider l hl e he
    unfold RocketLeague.getCurrentState at hl
    split at hl
    · cases hl
    · cases hl
    · rw [Option.some_inj] at hl
      rw [← hl] at he
      obtain ⟨raw, hraw, hne⟩ := List.mem_map.mp he
      rw [← hne]
      exact RocketLeague.filterRanks_not_excluded hraw

/-- C5 witness: the quantified parts of claim_C5 instantiated at a concrete
provider payload containing one kept playlist (Doubles) and excluded ones. -/
theorem claim_C5_witness :
    (∀ e ∈ RocketLeague.computeRankDiff
        [⟨some 1, 5, some "Doubles", some "Champion I", some "3", some 800, some "W2", (4, 0)⟩,
          ⟨some 2, 5, some "Solo Duel", some "Diamond III", some "2", some 600, none, (4, 0)⟩]
        ((RocketLeague.getCurrentState
          (some [⟨some "Doubles", some "Champion I", some 3, some 815, some "W3"⟩,
            ⟨some "Ranked Hoops", some "Gold II", some 2, some 500, none⟩])).getD []),
      e.playlist ≠ some "Solo Duel" ∧ e.playlist ≠ some "Ranked Hoops") ∧
    RocketLeague.isExcludedPlaylist
      (RocketLeague.RawEntry.playlist ⟨some "Doubles", some "Gold III", some 2, some 700, none⟩) =
      false ∧
    ((⟨1, 3, some "Doubles", some "Gold III", some "2", some 700, none, (2, 0)⟩ :
        RocketLeague.Row) ∈ ([] : List RocketLeague.Row) ∨
      RocketLeague.isExcludedPlaylist
        (RocketLeague.Row.playlist
          ⟨1, 3, some "Doubles", some "Gold III", some "2", some 700, none, (2, 0)⟩) = false) ∧
    RocketLeague.isExcludedPlaylist
      (RocketLeague.Entry.playlist
        ⟨some "Doubles", some "Gold III", some "2", some 700, none⟩) = false := by
  refine ⟨claim_C5.2.1, ?_, ?_, ?_⟩
  · exact claim_C5.2.2.1
      [⟨some "Doubles", some "Gold III", some 2, some 700, none⟩,
        ⟨some "Rumble", some "Gold I", some 1, some 650, none⟩]
      ⟨some "Doubles", some "Gold III", some 2, some 700, none⟩ (by decide)
  · exact claim_C5.2.2.2.1 [] 3 2
      (some [⟨some "Doubles", some "Gold III", some 2, some 700, none⟩,
        ⟨some "Rumble", some "Gold I", some 1, some 650, none⟩]) (2, 0)
      ⟨1, 3, some "Doubles", some "Gold III", some "2", some 700, none, (2, 0)⟩ (by decide)
  · exact claim_C5.2.2.2.2
      (some [⟨some "Doubles", some "Gold III", some 2, some 700, none⟩,
        ⟨some "Rumble", some "Gold I", some 1, some 650, none⟩])
      [⟨some "Doubles", some "Gold III", some "2", some 700, none⟩] (by decide)
      ⟨some "Doubles", some "Gold III", some "2", some 700, none⟩ (by decide)

theorem Lol.lolEarliest_eq_none {l : List Lol.Row} : Lol.earliest l = none ↔ l = [] := by
  cases l <;> simp [Lol.earliest]

theorem Apex.apexEarliest_eq_none {l : List Apex.Row} : Apex.earliest l = none ↔ l = [] := by
  cases l <;> simp [Apex.earliest]

theorem Lol.lolGetOrCreate_stable (store : List Lol.Row) (acct : Nat) (q : String) (today : Nat)
    (p1 p2 : Option Lol.ProviderData) (now1 now2 : Nat × Nat) (b : Lol.Row)
    (hday : now1.1 = today)
    (h1 : (Lol.getOrCreateDailyBaseline store acct q today p1 now1).1 = some b) :
    (Lol.getOrCreateDailyBaseline (Lol.getOrCreateDailyBaseline store acct q today p1 now1).2
      acct q today p2 now2).1 = some b := by
  cases hf : Lol.firstTodayRow store acct q today with
  | some row =>
    have e1 : Lol.getOrCreateDailyBaseline store acct q today p1 now1 = (some row, store) := by
      unfold Lol.getOrCreateDailyBaseline
      simp only [hf]
    rw [e1] at h1 ⊢
    unfold Lol.getOrCreateDailyBaseline
    simp only [hf]
    exact h1
  | none =>
    cases p1 with
    | none =>
      have e1 : Lol.getOrCreateDailyBaseline store acct q today none now1 = (none, store) := by
        unfold Lol.getOrCreateDailyBaseline
        simp only [hf]
      rw [e1] at h1
      exact absurd h1 (by simp)
    | some cur =>
      have e1 : Lol.getOrCreateDailyBaseline store acct q today (some cur) now1 =
          (some ⟨store.length + 1, acct, q, cur.tier, cur.division, cur.lp, cur.wins,
            cur.losses, now1⟩,
           store ++ [⟨store.length + 1, acct, q, cur.tier, cur.division, cur.lp, cur.wins,
            cur.losses, now1⟩]) := by
        unfold Lol.getOrCreateDailyBaseline
        simp only [hf]
      rw [e1] at h1 ⊢
      have hf2 : Lol.firstTodayRow
          (store ++ [⟨store.length + 1, acct, q, cur.tier, cur.division, cur.lp, cur.wins,
            cur.losses, now1⟩]) acct q today =
          some ⟨store.length + 1, acct, q, cur.tier, cur.division, cur.lp, cur.wins,
            cur.losses, now1⟩ := by
        unfold Lol.firstTodayRow at hf ⊢
        have hempty : store.filter (Lol.matchesToday acct q today) = [] :=
          Lol.lolEarliest_eq_none.mp hf
        rw [List.filter_append, hempty, List.nil_append]
        have hm : Lol.matchesToday acct q today
            ⟨store.length + 1, acct, q, cur.tier, cur.division, cur.lp, cur.wins,
              cur.losses, now1⟩ = true := by
          simp [Lol.matchesToday, hday]
        simp [List.filter, hm, Lol.earliest, Lol.earliestAux]
      unfold Lol.getOrCreateDailyBaseline
      simp only [hf2]
      exact h1

theorem Apex.apexGetOrCreate_stable (store : List Apex.Row) (acct : Nat) (today : Nat)
    (p1 p2 : Option Apex.ProviderData) (now1 now2 : Nat × Nat) (b : Apex.Row)
    (hday : now1.1 = today)
    (h1 : (Apex.getOrCreateDailyBaseline store acct today p1 now1).1 = some b) :
    (Apex.getOrCreateDailyBaseline (Apex.getOrCreateDailyBaseline store acct today p1 now1).2
      acct today p2 now2).1 = some b := by
  cases hf : Apex.firstTodayRow store acct today with
  | some row =>
    have e1 : Apex.getOrCreateDailyBaseline store acct today p1 now1 = (some row, store) := by
      unfold Apex.getOrCreateDailyBaseline
      simp only [hf]
    rw [e1] at h1 ⊢
    unfold Apex.getOrCreateDailyBaseline
    simp only [hf]
    exact h1
  | none =>
    cases p1 with
    | none =>
      have e1 : Apex.getOrCreateDailyBaseline store acct today none now1 = (none, store) := by
        unfold Apex.getOrCreateDailyBaseline
        simp only [hf]
      rw [e1] at h1
      exact absurd h1 (by simp)
    | some cur =>
      have e1 : Apex.getOrCreateDailyBaseline store acct today (some cur) now1 =
          (some ⟨store.length + 1, acct, cur.rankName, cur.rankDiv, cur.rankScore,
            cur.ladderPosPlatform, cur.rankedSeason, now1⟩,
           store ++ [⟨store.length + 1, acct, cur.rankName, cur.rankDiv, cur.rankScore,
            cur.ladderPosPlatform, cur.rankedSeason, now1⟩]) := by
        unfold Apex.getOrCreateDailyBaseline
        simp only [hf]
      rw [e1] at h1 ⊢
      have hf2 : Apex.firstTodayRow
          (store ++ [⟨store.length + 1, acct, cur.rankName, cur.rankDiv, cur.rankScore,
            cur.ladderPosPlatform, cur.rankedSeason, now1⟩]) acct today =
          some ⟨store.length + 1, acct, cur.rankName, cur.rankDiv, cur.rankScore,
            cur.ladderPosPlatform, cur.rankedSeason, now1⟩ := by
        unfold Apex.firstTodayRow at hf ⊢
        have hempty : store.filter (Apex.matchesToday acct today) = [] :=
          Apex.apexEarliest_eq_none.mp hf
        rw [List.filter_append, hempty, List.nil_append]
        have hm : Apex.matchesToday acct today
            ⟨store.length + 1, acct, cur.rankName, cur.rankDiv, cur.rankScore,
              cur.ladderPosPlatform, cur.rankedSeason, now1⟩ = true := by
          simp [Apex.matchesToday, hday]
        simp [List.filter, hm, Apex.earliest, Apex.earliestAux]
      unfold Apex.getOrCreateDailyBaseline
      simp only [hf2]
      exact h1

theorem timeLt_irrefl (t : Nat × Nat) : timeLt t t = false := by
  simp [timeLt]

theorem RocketLeague.minStep_isSome (t : Nat × Nat) (r : RocketLeague.Row) :
    ∃ t2, RocketLeague.minStep (some t) r = some t2 := by
  simp only [RocketLeague.minStep]
  split_ifs with h
  · exact ⟨r.capturedAt, rfl⟩
  · exact ⟨t, rfl⟩

theorem RocketLeague.foldl_minStep_isSome (l : List RocketLeague.Row) :
    ∀ t : Nat × Nat, ∃ t2, l.foldl RocketLeague.minStep (some t) = some t2 := by
  induction l with
  | nil => intro t; exact ⟨t, rfl⟩
  | cons r rs ih =>
    intro t
    obtain ⟨t2, ht2⟩ := RocketLeague.minStep_isSome t r
    rw [List.foldl_cons, ht2]
    exact ih t2

theorem RocketLeague.minCaptured_eq_none {l : List RocketLeague.Row} :
    RocketLeague.minCaptured l = none ↔ l = [] := by
  cases l with
  | nil => simp [RocketLeague.minCaptured]
  | cons x xs =>
    unfold RocketLeague.minCaptured
    rw [List.foldl_cons]
    have hstep : RocketLeague.minStep none x = some x.capturedAt := rfl
    rw [hstep]
    obtain ⟨t2, ht2⟩ := RocketLeague.foldl_minStep_isSome xs x.capturedAt
    rw [ht2]
    simp

theorem RocketLeague.minCaptured_const {l : List RocketLeague.Row} {now : Nat × Nat}
    (hne : l ≠ []) (hall : ∀ r ∈ l, r.capturedAt = now) :
    RocketLeague.minCaptured l = some now := by
  have aux : ∀ (ys : List RocketLeague.Row), (∀ r ∈ ys, r.capturedAt = now) →
      ys.foldl RocketLeague.minStep (some now) = some now := by
    intro ys
    induction ys with
    | nil => intro _; rfl
    | cons y ys ih =>
      intro h
      have hy : y.capturedAt = now := h y (List.mem_cons_self y ys)
      have hstep : RocketLeague.minStep (some now) y = some now := by
        simp only [RocketLeague.minStep]
        rw [hy, timeLt_irrefl]
        simp
      rw [List.foldl_cons, hstep]
      exact ih fun r hr => h r (List.mem_cons_of_mem y hr)
  cases l with
  | nil => exact absurd rfl hne
  | cons x xs =>
    unfold RocketLeague.minCaptured
    rw [List.foldl_cons]
    have hx : x.capturedAt = now := hall x (List.mem_cons_self x xs)
    have hstep : RocketLeague.minStep none x = some now := by
      simp only [RocketLeague.minStep]
      rw [hx]
    rw [hstep]
    exact aux xs fun r hr => hall r (List.mem_cons_of_mem x hr)

theorem insertSorted_perm (le : α → α → Bool) (x : α) (l : List α) :
    (insertSorted le x l).Perm (x :: l) := by
  induction l with
  | nil => exact List.Perm.refl _
  | cons y ys ih =>
    unfold insertSorted
    split_ifs
    · exact List.Perm.refl _
    · exact (List.Perm.cons y ih).trans (List.Perm.swap x y ys)

theorem sortByKey_perm (le : α → α → Bool) (l : List α) : (sortByKey le l).Perm l := by
  induction l with
  | nil => exact List.Perm.refl _
  | cons x xs ih =>
    exact (insertSorted_perm le x (sortByKey le xs)).trans (List.Perm.cons x ih)

theorem RocketLeague.mkRows_fields {r : RocketLeague.Row} :
    ∀ (l : List RocketLeague.Entry) (i acct : Nat) (now : Nat × Nat),
      r ∈ RocketLeague.mkRows i acct now l →
      r.externalAccountId = acct ∧ r.capturedAt = now := by
  intro l
  induction l with
  | nil => intro i acct now h; cases h
  | cons e es ih =>
    intro i acct now h
    rcases h with _ | ⟨_, hmem⟩
    · exact ⟨rfl, rfl⟩
    · exact ih (i + 1) acct now hmem

theorem RocketLeague.mkRows_map_eraseId_toB :
    ∀ (l : List RocketLeague.Entry) (i acct : Nat) (now : Nat × Nat),
      (RocketLeague.mkRows i acct now l).map
          (fun r => (RocketLeague.Row.toB r).eraseId) =
        RocketLeague.mkEcho acct now l := by
  intro l
  induction l with
  | nil => intro i acct now; rfl
  | cons e es ih =>
    intro i acct now
    unfold RocketLeague.mkRows
    rw [List.map_cons]
    unfold RocketLeague.mkEcho
    rw [List.map_cons]
    have ihx := ih (i + 1) acct now
    unfold RocketLeague.mkEcho at ihx
    rw [ihx]
    rfl

theorem RocketLeague.mkEcho_map_eraseId (acct : Nat) (now : Nat × Nat)
    (l : List RocketLeague.Entry) :
    (RocketLeague.mkEcho acct now l).map RocketLeague.BRow.eraseId =
      RocketLeague.mkEcho acct now l := by
  unfold RocketLeague.mkEcho
  rw [List.map_map]
  rfl

theorem RocketLeague.rlGetOrCreate_stable (store : List RocketLeague.Row) (acct today : Nat)
    (p1 p2 : Option (List RocketLeague.RawEntry)) (now1 now2 : Nat × Nat)
    (l : List RocketLeague.BRow) (hday : now1.1 = today)
    (h1 : (RocketLeague.getOrCreateDailyBaseline store acct today p1 now1).1 = some l)
    (hne : l ≠ []) :
    ∃ l2,
      (RocketLeague.getOrCreateDailyBaseline
          (RocketLeague.getOrCreateDailyBaseline store acct today p1 now1).2
          acct today p2 now2).1 = some l2 ∧
        (l2.map RocketLeague.BRow.eraseId).Perm (l.map RocketLeague.BRow.eraseId) := by
  cases hmin : RocketLeague.minCaptured (store.filter fun r =>
      r.externalAccountId == acct && r.capturedAt.1 == today) with
  | some t =>
    have e1 : RocketLeague.getOrCreateDailyBaseline store acct today p1 now1 =
        (some ((RocketLeague.sortByPlaylist (store.filter fun r =>
          r.externalAccountId == acct && r.capturedAt == t)).map RocketLeague.Row.toB),
         store) := by
      unfold RocketLeague.getOrCreateDailyBaseline
      simp only [hmin]
    rw [e1] at h1 ⊢
    refine ⟨l, ?_, List.Perm.refl _⟩
    unfold RocketLeague.getOrCreateDailyBaseline
    simp only [hmin]
    exact h1
  | none =>
    have hstore : store.filter (fun r =>
        r.externalAccountId == acct && r.capturedAt.1 == today) = [] :=
      RocketLeague.minCaptured_eq_none.mp hmin
    cases p1 with
    | none =>
      have e1 : RocketLeague.getOrCreateDailyBaseline store acct today none now1 =
          (none, store) := by
        unfold RocketLeague.getOrCreateDailyBaseline
        simp only [hmin]
      rw [e1] at h1
      exact absurd h1 (by simp)
    | some ranks =>
      cases ranks with
      | nil =>
        have e1 : RocketLeague.getOrCreateDailyBaseline store acct today (some []) now1 =
            (none, store) := by
          unfold RocketLeague.getOrCreateDailyBaseline
          simp only [hmin]
        rw [e1] at h1
        exact absurd h1 (by simp)
      | cons r0 rs =>
        by_cases hfe : (RocketLeague.filterRanks (r0 :: rs)).isEmpty
        · have e1 : RocketLeague.getOrCreateDailyBaseline store acct today
              (some (r0 :: rs)) now1 = (some [], store) := by
            unfold RocketLeague.getOrCreateDailyBaseline
            simp only [hmin]
            rw [if_pos hfe]
          rw [e1] at h1
          have : ([] : List RocketLeague.BRow) = l := by simpa using h1
          exact absurd this.symm hne
        · have e1 : RocketLeague.getOrCreateDailyBaseline store acct today
              (some (r0 :: rs)) now1 =
              (some (RocketLeague.mkEcho acct now1
                ((RocketLeague.filterRanks (r0 :: rs)).map RocketLeague.normalizeRankEntry)),
               store ++ RocketLeague.mkRows (store.length + 1) acct now1
                ((RocketLeague.filterRanks (r0 :: rs)).map RocketLeague.normalizeRankEntry)) := by
            unfold RocketLeague.getOrCreateDailyBaseline
            simp only [hmin]
            rw [if_neg hfe]
          rw [e1] at h1 ⊢
          have hl : l = RocketLeague.mkEcho acct now1
              ((RocketLeague.filterRanks (r0 :: rs)).map RocketLeague.normalizeRankEntry) :=
            (Option.some_inj.mp h1).symm
          have hfields : ∀ r ∈ RocketLeague.mkRows (store.length + 1) acct now1
              ((RocketLeague.filterRanks (r0 :: rs)).map RocketLeague.normalizeRankEntry),
              r.externalAccountId = acct ∧ r.capturedAt = now1 := fun r hr =>
            RocketLeague.mkRows_fields
              ((RocketLeague.filterRanks (r0 :: rs)).map RocketLeague.normalizeRankEntry)
              (store.length + 1) acct now1 hr
          have hnon : RocketLeague.mkRows (store.length + 1) acct now1
              ((RocketLeague.filterRanks (r0 :: rs)).map RocketLeague.normalizeRankEntry) ≠
              [] := by
            cases hF : RocketLeague.filterRanks (r0 :: rs) with
            | nil => rw [hF] at hfe; exact absurd rfl hfe
            | cons f fs =>
              simp [RocketLeague.mkRows]
          have hfilter1 : (store ++ RocketLeague.mkRows (store.length + 1) acct now1
                ((RocketLeague.filterRanks (r0 :: rs)).map
                  RocketLeague.normalizeRankEntry)).filter
              (fun r => r.externalAccountId == acct && r.capturedAt.1 == today) =
              RocketLeague.mkRows (store.length + 1) acct now1
                ((RocketLeague.filterRanks (r0 :: rs)).map
                  RocketLeague.normalizeRankEntry) := by
            rw [List.filter_append, hstore, List.nil_append]
            apply List.filter_eq_self.mpr
            intro r hr
            obtain ⟨ha, hc⟩ := hfields r hr
            simp [ha, hc, hday]
          have hmin2 : RocketLeague.minCaptured
              ((store ++ RocketLeague.mkRows (store.length + 1) acct now1
                ((RocketLeague.filterRanks (r0 :: rs)).map
                  RocketLeague.normalizeRankEntry)).filter
                (fun r => r.externalAccountId == acct && r.capturedAt.1 == today)) =
              some now1 := by
            rw [hfilter1]
            exact RocketLeague.minCaptured_const hnon fun r hr => (hfields r hr).2
          have hfilter2 : (store ++ RocketLeague.mkRows (store.length + 1) acct now1
                ((RocketLeague.filterRanks (r0 :: rs)).map
                  RocketLeague.normalizeRankEntry)).filter
              (fun r => r.externalAccountId == acct && r.capturedAt == now1) =
              RocketLeague.mkRows (store.length + 1) acct now1
                ((RocketLeague.filterRanks (r0 :: rs)).map
                  RocketLeague.normalizeRankEntry) := by
            rw [List.filter_append]
            have hs2 : store.filter
                (fun r => r.externalAccountId == acct && r.capturedAt == now1) = [] := by
              rw [List.filter_eq_nil_iff]
              intro r hr hcon
              rw [Bool.and_eq_true] at hcon
              have hcap : r.capturedAt = now1 := by simpa using hcon.2
              have htoday : (fun r : RocketLeague.Row =>
                  r.externalAccountId == acct && r.capturedAt.1 == today) r = true := by
                rw [Bool.and_eq_true]
                exact ⟨hcon.1, by simp [hcap, hday]⟩
              have hmem : r ∈ store.filter (fun r =>
                  r.externalAccountId == acct && r.capturedAt.1 == today) :=
                List.mem_filter.mpr ⟨hr, htoday⟩
              rw [hstore] at hmem
              cases hmem
            rw [hs2, List.nil_append]
            apply List.filter_eq_self.mpr
            intro r hr
            obtain ⟨ha, hc⟩ := hfields r hr
            simp [ha, hc]
          have e2 : RocketLeague.getOrCreateDailyBaseline
              (store ++ RocketLeague.mkRows (store.length + 1) acct now1
                ((RocketLeague.filterRanks (r0 :: rs)).map
                  RocketLeague.normalizeRankEntry)) acct today p2 now2 =
              (some ((RocketLeague.sortByPlaylist
                (RocketLeague.mkRows (store.length + 1) acct now1
                  ((RocketLeague.filterRanks (r0 :: rs)).map
                    RocketLeague.normalizeRankEntry))).map RocketLeague.Row.toB),
               store ++ RocketLeague.mkRows (store.length + 1) acct now1
                ((RocketLeague.filterRanks (r0 :: rs)).map
                  RocketLeague.normalizeRankEntry)) := by
            unfold RocketLeague.getOrCreateDailyBaseline
            simp only [hmin2]
            rw [hfilter2]
          rw [e2]
          refine ⟨_, rfl, ?_⟩
          rw [hl, List.map_map, RocketLeague.mkEcho_map_eraseId]
          have hperm := (sortByKey_perm
            (fun r s : RocketLeague.Row => RocketLeague.playlistLe r.playlist s.playlist)
            (RocketLeague.mkRows (store.length + 1) acct now1
              ((RocketLeague.filterRanks (r0 :: rs)).map
                RocketLeague.normalizeRankEntry))).map
            fun r => (RocketLeague.Row.toB r).eraseId
          rw [RocketLeague.mkRows_map_eraseId_toB] at hperm
          exact hperm

/-- C1 amended: for the store-backed trackers (League, Apex, Rocket League)
the baseline is immutable within a UTC day: once a generateDailyReport call
on some day returns a baseline (for Rocket League, a non-empty one), a second
call on that day returns the same baseline whatever the provider now says —
for Rocket League the same rows up to row order and the id column.  (The
Valorant tracker violates the original claim, see the counterexample: it
re-derives its baseline from the live MMR history on every call.) -/
theorem claim_C1 :
    (∀ (store : List Lol.Row) (acct : Nat) (q : String) (today : Nat)
        (p1 c1 p2 c2 : Option Lol.ProviderData) (now1 now2 : Nat × Nat) (b : Lol.Row),
      now1.1 = today →
      (Lol.generateDailyReport store acct q today p1 c1 now1).1.baseline = some b →
      (Lol.generateDailyReport (Lol.generateDailyReport store acct q today p1 c1 now1).2
        acct q today p2 c2 now2).1.baseline = some b) ∧
    (∀ (store : List Apex.Row) (acct today : Nat)
        (p1 c1 p2 c2 : Option Apex.ProviderData) (now1 now2 : Nat × Nat) (b : Apex.Row),
      now1.1 = today →
      (Apex.generateDailyReport store acct today p1 c1 now1).1.baseline = some b →
      (Apex.generateDailyReport (Apex.generateDailyReport store acct today p1 c1 now1).2
        acct today p2 c2 now2).1.baseline = some b) ∧
    (∀ (store : List RocketLeague.Row) (acct today : Nat)
        (p1 c1 p2 c2 : Option (List RocketLeague.RawEntry)) (now1 now2 : Nat × Nat)
        (l : List RocketLeague.BRow),
      now1.1 = today →
      (RocketLeague.generateDailyReport store acct today p1 c1 now1).1.baseline = some l →
      l ≠ [] →
      ∃ l2,
        (RocketLeague.generateDailyReport
            (RocketLeague.generateDailyReport store acct today p1 c1 now1).2
            acct today p2 c2 now2).1.baseline = some l2 ∧
          (l2.map RocketLeague.BRow.eraseId).Perm (l.map RocketLeague.BRow.eraseId)) := by
  refine ⟨?_, ?_, ?_⟩
  · intro store acct q today p1 c1 p2 c2 now1 now2 b hday h1
    exact Lol.lolGetOrCreate_stable store acct q today p1 p2 now1 now2 b hday h1
  · intro store acct today p1 c1 p2 c2 now1 now2 b hday h1
    exact Apex.apexGetOrCreate_stable store acct today p1 p2 now1 now2 b hday h1
  · intro store acct today p1 c1 p2 c2 now1 now2 l hday h1 hne
    exact RocketLeague.rlGetOrCreate_stable store acct today p1 p2 now1 now2 l hday h1 hne

/-- C1 witness: claim_C1 on empty stores, with the provider changing its
answer between the two same-day calls for each store-backed tracker. -/
theorem claim_C1_witness :
    (Lol.generateDailyReport
        (Lol.generateDailyReport [] 1 "RANKED_SOLO_5x5" 0
          (some ⟨some "GOLD", some "II", some 10, some 1, some 2⟩)
          (some ⟨some "GOLD", some "II", some 10, some 1, some 2⟩) (0, 1)).2
        1 "RANKED_SOLO_5x5" 0
        (some ⟨some "GOLD", some "I", some 99, some 9, some 2⟩)
        (some ⟨some "GOLD", some "I", some 99, some 9, some 2⟩) (0, 9)).1.baseline =
      some ⟨1, 1, "RANKED_SOLO_5x5", some "GOLD", some "II", some 10, some 1, some 2, (0, 1)⟩ ∧
    (Apex.generateDailyReport
        (Apex.generateDailyReport [] 4 7
          (some ⟨some "Gold", some 2, some 5000, some 900, none, some "17", some "PC", "p"⟩)
          none (7, 1)).2
        4 7 (some ⟨some "Diamond", some 4, some 7000, some 300, none, some "17", some "PC", "p"⟩)
        none (7, 2)).1.baseline =
      some ⟨1, 4, some "Gold", some 2, some 5000, some 900, some "17", (7, 1)⟩ ∧
    (∃ l2,
      (RocketLeague.generateDailyReport
          (RocketLeague.generateDailyReport [] 2 5
            (some [⟨some "Doubles", some "Champion I", some 3, some 800, none⟩]) none (5, 0)).2
          2 5 (some [⟨some "Doubles", some "Champion II", some 1, some 900, none⟩]) none
          (5, 8)).1.baseline = some l2 ∧
        (l2.map RocketLeague.BRow.eraseId).Perm
          ([⟨none, 2, some "Doubles", some "Champion I", some "3", some 800, none, (5, 0)⟩].map
            RocketLeague.BRow.eraseId)) := by
  refine ⟨?_, ?_, ?_⟩
  · exact claim_C1.1 [] 1 "RANKED_SOLO_5x5" 0
      (some ⟨some "GOLD", some "II", some 10, some 1, some 2⟩)
      (some ⟨some "GOLD", some "II", some 10, some 1, some 2⟩)
      (some ⟨some "GOLD", some "I", some 99, some 9, some 2⟩)
      (some ⟨some "GOLD", some "I", some 99, some 9, some 2⟩) (0, 1) (0, 9)
      ⟨1, 1, "RANKED_SOLO_5x5", some "GOLD", some "II", some 10, some 1, some 2, (0, 1)⟩
      rfl (by decide)
  · exact claim_C1.2.1 [] 4 7
      (some ⟨some "Gold", some 2, some 5000, some 900, none, some "17", some "PC", "p"⟩)
      none
      (some ⟨some "Diamond", some 4, some 7000, some 300, none, some "17", some "PC", "p"⟩)
      none (7, 1) (7, 2)
      ⟨1, 4, some "Gold", some 2, some 5000, some 900, some "17", (7, 1)⟩
      rfl (by decide)
  · exact claim_C1.2.2 [] 2 5
      (some [⟨some "Doubles", some "Champion I", some 3, some 800, none⟩]) none
      (some [⟨some "Doubles", some "Champion II", some 1, some 900, none⟩]) none
      (5, 0) (5, 8)
      [⟨none, 2, some "Doubles", some "Champion I", some "3", some 800, none, (5, 0)⟩]
      rfl (by decide) (by decide)

/-- C1 counterexample: the claim as stated fails for the Valorant tracker,
which persists nothing and re-derives the baseline from the provider's live
MMR history: two same-day generateDailyReport calls whose histories differ
only in games played later that day return different baselines. -/
theorem claim_C1_counterexample :
    (Valorant.generateDailyReport (some [⟨some "Gold 1", some 10, some 20, some 10⟩])
        "competitive" 10).baseline ≠
      (Valorant.generateDailyReport (some [⟨some "Gold 1", some 30, some 30, some 10⟩])
        "competitive" 10).baseline := by
  decide

example : Valorant.parseValorantTier (some "Gold 1") = (some "GOLD", some "1") := by decide
example : Valorant.parseValorantTier (some "Radiant") = (some "RADIANT", none) := by decide
example :
    (Valorant.generateDailyReport
      (some [⟨some "Gold 1", some 10, some 20, some 10⟩]) "competitive" 10).baseline =
      some ⟨some "GOLD", some "1", some (-10), "competitive"⟩ := by decide
